import Mathlib

/-!
# hashi-helper: `command/profile/use_profile.go`

A shallow embedding of `UseProfile` and of the refresh drivers it calls
(`vaultLoginGitHub`, `vaultGetConsulCreds`, `vaultGetNomadCreds`,
`readFromVault`, `decryptFile`, `getCacheFile`, `getProfileFile`).

Everything outside the repository (the command line, the environment, the
file system, keybase, the YAML codec, the Vault client, the clock and the
`time` package) is collected in one record `Env`.  The three calls whose
answer may change while a run is in progress (`time.Now`, the GitHub login
and `Logical().Read`) are indexed by the number of such calls made so far.

The program state threaded through the run carries, besides the Go locals,
an observation log (`trace`) to which every driver appends an event when it
is entered, when it reaches the Vault API and when it returns.
-/

namespace HashiHelper

/-! ## Data model (lines 20-56) -/

/-- Go `authConfig`; the defaults are the Go zero values. -/
structure authConfig where
  Method : String := ""
  CredsPath : String := ""
  Token : String := ""
  ExpireTime : String := ""
  UnsealToken : String := ""
  GithubToken : String := ""
  GithubMount : String := ""
deriving DecidableEq, Repr, Inhabited

/-- Go `vaultCreds`. -/
structure vaultCreds where
  Auth : authConfig := {}
  Server : String := ""
deriving DecidableEq, Repr, Inhabited

/-- Go `consulCreds`. -/
structure consulCreds where
  Server : String := ""
  Auth : authConfig := {}
deriving DecidableEq, Repr, Inhabited

/-- Go `nomadCreds`. -/
structure nomadCreds where
  Auth : authConfig := {}
  Server : String := ""
deriving DecidableEq, Repr, Inhabited

/-- Go `profileStruct`. -/
structure profileStruct where
  Vault : vaultCreds := {}
  Consul : consulCreds := {}
  Nomad : nomadCreds := {}
deriving DecidableEq, Repr, Inhabited

/-- Go `profiles` (`map[string]profileStruct`), as a finite map given by its
lookup function: `none` is an absent key. -/
abbrev profiles := String → Option profileStruct

/-- The empty map, `make(profiles)`. -/
def profiles.empty : profiles := fun _ => none

/-- Map read `m[name]`: the zero value when the key is absent. -/
def profiles.index (m : profiles) (name : String) : profileStruct :=
  (m name).getD {}

/-- Map write `m[name] = p`. -/
def profiles.set (m : profiles) (name : String) (p : profileStruct) : profiles :=
  fun k => if k = name then some p else m k

/-! ## The outside world -/

/-- An instant, in nanoseconds since the Unix epoch (`time.Time`). -/
abbrev Time := Int

/-- A value of type `interface{}` stored in `Secret.Data`: a string, or
anything else. -/
inductive Value where
  | str (s : String)
  | other
deriving DecidableEq, Repr

/-- The part of `api.SecretAuth` the code reads. -/
structure SecretAuth where
  ClientToken : String
  LeaseDuration : Int
deriving DecidableEq, Repr

/-- The part of `api.Secret` the code reads.  `Data k = none` is a key that
is absent (the map read yields the nil interface); `Auth = none` is a nil
pointer. -/
structure Secret where
  Data : String → Option Value
  LeaseDuration : Int
  Auth : Option SecretAuth

/-- The settings of `*vault.Client` the code writes. -/
structure Client where
  address : String
  token : String
deriving DecidableEq, Repr

/-- Everything `UseProfile` obtains from outside the repository. -/
structure Env where
  /-- Positional arguments, `c.Args()`. -/
  args : List String
  /-- Process environment, `os.Getenv`. -/
  getenv : String → String
  /-- Result of `homedir.Dir()`. -/
  homedir : Except String String
  /-- Path concatenation, `filepath.Join`. -/
  filepathJoin : String → String → String
  /-- Error of `os.Stat`, if any. -/
  stat : String → Option String
  /-- Run of `keybase pgp decrypt --infile path`: standard output, or the
  error together with standard error. -/
  keybaseDecrypt : String → Except (String × String) String
  /-- Decoder `yaml.Unmarshal` into a `profiles` variable that is nil before
  the call: an error, or the map afterwards (`none` when it is still nil). -/
  yamlUnmarshal : String → Except String (Option profiles)
  /-- Result of `api.NewClient(vault.DefaultConfig())`, `none` when it is nil. -/
  newClient : Option Client
  /-- Reading of `time.Now()` taken as the k-th outside call. -/
  now : Nat → Time
  /-- Parser `time.Parse(time.RFC3339Nano, s)`. -/
  timeParse : String → Option Time
  /-- Printer `Time.Format(time.RFC3339Nano)`. -/
  timeFormat : Time → String
  /-- Login `vgh.CLIHandler.Auth(vc, m)` made as the k-th outside call: an
  error, or a secret (the handler turns a nil secret into an error). -/
  githubAuth : Nat → Client → List (String × String) → Except String Secret
  /-- Read `vc.Logical().Read(path)` made as the k-th outside call; the
  secret may be nil. -/
  logicalRead : Nat → Client → String → Except String (Option Secret)
  /-- Name of the file made by `ioutil.TempFile`, `none` when it fails. -/
  tempFile : Option String
  /-- Whether `yaml.Marshal` fails. -/
  yamlMarshalFails : Bool
  /-- Whether `ioutil.WriteFile` fails. -/
  writeFileFails : Bool
  /-- Error of the run of `keybase pgp encrypt --infile a --outfile b`, if
  any. -/
  keybaseEncrypt : String → String → Option String

/-- The three refresh drivers. -/
inductive Driver where
  | vaultLoginGitHub
  | vaultGetConsulCreds
  | vaultGetNomadCreds
deriving DecidableEq, Repr

/-- Entries of the observation log. -/
inductive Event where
  /-- A driver was entered. -/
  | call (d : Driver)
  /-- The GitHub login endpoint was called with these parameters. -/
  | githubAuth (m : List (String × String))
  /-- The secrets engine was read at this path. -/
  | logicalRead (path : String)
  /-- A driver returned this record (its `Auth` and `Server`) and error. -/
  | ret (d : Driver) (a : authConfig) (server : String) (err : Option String)
deriving DecidableEq, Repr

/-- The state threaded through a run. -/
structure State where
  /-- Number of outside calls (clock, login, read) made so far. -/
  tick : Nat := 0
  /-- Observation log. -/
  trace : List Event := []
  /-- Writes to standard output, oldest first. -/
  stdout : List String := []
  /-- Map whose YAML `ioutil.WriteFile` stored in the temporary file. -/
  wrote : Option profiles := none
  /-- Map whose encryption replaced the cache file. -/
  stored : Option profiles := none
  /-- Go local `v`. -/
  v : Client := ⟨"", ""⟩
  /-- Go local `printingBuffer`, as the sequence of strings written to it. -/
  printingBuffer : List String := []
  /-- Go local `profileCache`. -/
  profileCache : profileStruct := {}

/-- How a Go function with result `(α, error)` ends: it returns, or panics. -/
inductive Ret (α : Type) where
  | done (val : α) (err : Option String) (s : State)
  | panic (s : State)

/-- How a block of `UseProfile` ends: it falls through to the next statement
(for the last block: returns nil), returns an error, or panics. -/
inductive Result where
  | ok (s : State)
  | error (msg : String) (s : State)
  | panic (s : State)

/-- The state in which a block ended. -/
def Result.state : Result → State
  | .ok s => s
  | .error _ s => s
  | .panic s => s

/-- Sequencing of blocks: the next block runs only after a fall-through. -/
def Result.andThen (r : Result) (f : State → Result) : Result :=
  match r with
  | .ok s => f s
  | .error msg s => .error msg s
  | .panic s => .panic s

/-- Two's-complement wrap of an integer to `int64`. -/
def wrap64 (x : Int) : Int :=
  (x + 9223372036854775808) % 18446744073709551616 - 9223372036854775808

/-- Go `time.Now().Add(time.Second * time.Duration(lease))`, where `now` is
the clock reading: the product is an `int64` number of nanoseconds. -/
def expiryAfter (now : Time) (lease : Int) : Time :=
  now + wrap64 (1000000000 * lease)

/-- Append an event to the observation log. -/
def State.log (s : State) (e : Event) : State :=
  { s with trace := s.trace ++ [e] }

/-- Count one outside call. -/
def State.step (s : State) : State :=
  { s with tick := s.tick + 1 }

/-- Go `printingBuffer.WriteString(text)`. -/
def State.write (s : State) (text : String) : State :=
  { s with printingBuffer := s.printingBuffer ++ [text] }

/-! ## Helpers and drivers (lines 243-356) -/

/-- Lines 289-297, `readFromVault`: the secret (possibly nil) and the error. -/
def readFromVault (env : Env) (v : Client) (path : String) (s : State) :
    Ret (Option Secret) :=
  match env.logicalRead s.tick v path with
  | .error err => .done none (some err) ((s.log (.logicalRead path)).step)
  | .ok creds => .done creds none ((s.log (.logicalRead path)).step)

/-- Lines 243-253, `vaultGetNomadCreds`.  Line 249 panics when `r` is nil,
when `r.Data` has no `secret_id`, and when that value is not a string. -/
def vaultGetNomadCreds (env : Env) (n : nomadCreds) (vc : Client) (s : State) :
    Ret nomadCreds :=
  match readFromVault env vc n.Auth.CredsPath (s.log (.call .vaultGetNomadCreds)) with
  | .panic s1 => .panic s1
  | .done _ (some err) s1 =>
    .done n (some err) (s1.log (.ret .vaultGetNomadCreds n.Auth n.Server (some err)))
  | .done none none s1 => .panic s1
  | .done (some r) none s1 =>
    match r.Data "secret_id" with
    | some (.str tok) =>
      let n1 : nomadCreds := { n with Auth := { n.Auth with Token := tok } }
      let n2 : nomadCreds := { n1 with Auth := { n1.Auth with
        ExpireTime := env.timeFormat (expiryAfter (env.now s1.tick) r.LeaseDuration) } }
      .done n2 none (s1.step.log (.ret .vaultGetNomadCreds n2.Auth n2.Server none))
    | _ => .panic s1

/-- Lines 255-265, `vaultGetConsulCreds`.  Line 261 panics like line 249. -/
def vaultGetConsulCreds (env : Env) (c : consulCreds) (vc : Client) (s : State) :
    Ret consulCreds :=
  match readFromVault env vc c.Auth.CredsPath (s.log (.call .vaultGetConsulCreds)) with
  | .panic s1 => .panic s1
  | .done _ (some err) s1 =>
    .done c (some err) (s1.log (.ret .vaultGetConsulCreds c.Auth c.Server (some err)))
  | .done none none s1 => .panic s1
  | .done (some r) none s1 =>
    match r.Data "secret_id" with
    | some (.str tok) =>
      let c1 : consulCreds := { c with Auth := { c.Auth with Token := tok } }
      let c2 : consulCreds := { c1 with Auth := { c1.Auth with
        ExpireTime := env.timeFormat (expiryAfter (env.now s1.tick) r.LeaseDuration) } }
      .done c2 none (s1.step.log (.ret .vaultGetConsulCreds c2.Auth c2.Server none))
    | _ => .panic s1

/-- Lines 267-287, `vaultLoginGitHub`.  Line 282 panics when `secret.Auth`
is nil. -/
def vaultLoginGitHub (env : Env) (v : vaultCreds) (vc : Client) (s : State) :
    Ret vaultCreds :=
  let s0 := s.log (.call .vaultLoginGitHub)
  let m : List (String × String) :=
    if v.Auth.GithubMount ≠ "" then [("mount", v.Auth.GithubMount)] else []
  if v.Auth.GithubToken = "" then
    let err := "github_token should be provided when using GitHub Vault auth method"
    .done v (some err) (s0.log (.ret .vaultLoginGitHub v.Auth v.Server (some err)))
  else
    let m1 := m ++ [("token", v.Auth.GithubToken)]
    let s1 := (s0.log (.githubAuth m1)).step
    match env.githubAuth s0.tick vc m1 with
    | .error err => .done v (some err) (s1.log (.ret .vaultLoginGitHub v.Auth v.Server (some err)))
    | .ok secret =>
      match secret.Auth with
      | none => .panic s1
      | some a =>
        let v1 : vaultCreds := { v with Auth := { v.Auth with Token := a.ClientToken } }
        let v2 : vaultCreds := { v1 with Auth := { v1.Auth with
          ExpireTime := env.timeFormat (expiryAfter (env.now s1.tick) a.LeaseDuration) } }
        .done v2 none (s1.step.log (.ret .vaultLoginGitHub v2.Auth v2.Server none))

/-- Lines 299-309, `getCacheFile`; `none` is the panic of line 304. -/
def getCacheFile (env : Env) : Option String :=
  let path := env.getenv "HASHI_HELPER_CACHE_FILE"
  if path = "" then
    match env.homedir with
    | .error _ => none
    | .ok homePath => some (env.filepathJoin homePath "/.hashi_helper_cache.pgp")
  else some path

/-- Lines 346-356, `getProfileFile`; `none` is the panic of line 351. -/
def getProfileFile (env : Env) : Option String :=
  let path := env.getenv "HASHI_HELPER_PROFILE_FILE"
  if path = "" then
    match env.homedir with
    | .error _ => none
    | .ok homePath => some (env.filepathJoin homePath "/.hashi_helper_profiles.pgp")
  else some path

/-- Lines 311-331, `decryptFile`: the bytes (`none` is nil) and the error. -/
def decryptFile (env : Env) (filePath : String) (s : State) :
    (Option String × Option String) × State :=
  match env.stat filePath with
  | some err => ((none, some err), s)
  | none =>
    let s1 : State :=
      { s with stdout := s.stdout ++ ["# Decrypting " ++ filePath ++ " using keybase \n"] }
    match env.keybaseDecrypt filePath with
    | .error (err, stderr) =>
      ((none, some ("Failed to run keybase gpg decrypt: " ++ err ++ " - " ++ stderr)), s1)
    | .ok out => ((some out, none), s1)

/-- Lines 333-344, `encryptFile`: the error, if any. -/
def encryptFile (env : Env) (inFile outFile : String) : Option String :=
  env.keybaseEncrypt inFile outFile

/-! ## `UseProfile` (lines 58-241), block by block -/

/-- Where lines 64-98 leave the run: it has already ended, or the profile
name, the profile and the cache map (`none` is a nil map) are known. -/
inductive Load where
  | stop (r : Result)
  | ready (name : String) (profile : profileStruct) (profilesCache : Option profiles)
      (s : State)

/-- Lines 88-98: the cache file is decrypted (the error is dropped) and, when
bytes came back, decoded; `profileCache` is read from the map. -/
def UseProfile.loadCache (env : Env) (name : String) (profile : profileStruct)
    (s : State) : Load :=
  match getCacheFile env with
  | none => .stop (.panic s)
  | some cacheFile =>
    match decryptFile env cacheFile s with
    | ((some cacheDat, _), s1) =>
      match env.yamlUnmarshal cacheDat with
      | .error err => .stop (.error err s1)
      | .ok none => .ready name profile none { s1 with profileCache := {} }
      | .ok (some m) => .ready name profile (some m) { s1 with profileCache := m.index name }
    | ((none, _), s1) =>
      .ready name profile (some profiles.empty)
        { s1 with profileCache := profiles.empty.index name }

/-- Lines 64-98: arguments, profiles file, cache file. -/
def UseProfile.load (env : Env) : Load :=
  let s : State := {}
  if env.args = [] then
    .stop (.error "Please provide a profile name as first argument" s)
  else
    let name := env.args.headD ""
    if name = "" then .stop (.error "Missing profile name" s)
    else
      match getProfileFile env with
      | none => .stop (.panic s)
      | some profileFile =>
        match decryptFile env profileFile s with
        | ((_, some err), s1) => .stop (.error err s1)
        | ((none, none), s1) =>
          -- not reached: decryptFile returns bytes or an error
          .stop (.error ("No profile with the name \x27" ++ name ++ "\x27 was found") s1)
        | ((some dat, none), s1) =>
          match env.yamlUnmarshal dat with
          | .error err => .stop (.error err s1)
          | .ok parsedProfiles =>
            match parsedProfiles.bind (fun m => m name) with
            | none =>
              .stop (.error ("No profile with the name \x27" ++ name ++ "\x27 was found") s1)
            | some profile => UseProfile.loadCache env name profile s1

/-- Lines 100-103: the Vault client; line 103 panics on a nil client. -/
def UseProfile.client (env : Env) (s : State) : Result :=
  match env.newClient with
  | none => .panic s
  | some v => .ok { s with v := v }

/-- The statement `profileCache.Vault, err = vaultLoginGitHub(profile.Vault, v)`
with its error check (lines 125-128, 130-133, 137-140). -/
def UseProfile.loginVault (env : Env) (name : String) (profile : profileStruct)
    (s : State) : Result :=
  match vaultLoginGitHub env profile.Vault s.v s with
  | .panic s1 => .panic s1
  | .done r (some err) s1 =>
    .error ("can\x27t login to Vault using github for profile " ++ name ++ " - " ++ err)
      { s1 with profileCache := { s1.profileCache with Vault := r } }
  | .done r none s1 => .ok { s1 with profileCache := { s1.profileCache with Vault := r } }

/-- The statement `profileCache.Consul, err = vaultGetConsulCreds(profile.Consul, v)`
with its error check (lines 161-164, 166-169). -/
def UseProfile.readConsul (env : Env) (name : String) (profile : profileStruct)
    (s : State) : Result :=
  match vaultGetConsulCreds env profile.Consul s.v s with
  | .panic s1 => .panic s1
  | .done r (some _) s1 =>
    .error ("error reading Consul creds for profile " ++ name)
      { s1 with profileCache := { s1.profileCache with Consul := r } }
  | .done r none s1 => .ok { s1 with profileCache := { s1.profileCache with Consul := r } }

/-- The statement `profileCache.Nomad, err = vaultGetNomadCreds(profile.Nomad, v)`
with its error check, whose message names `backend` (lines 173-176 with
"Consul"; lines 194-197, 199-202, 206-209 with "Nomad"). -/
def UseProfile.readNomad (env : Env) (backend : String) (name : String)
    (profile : profileStruct) (s : State) : Result :=
  match vaultGetNomadCreds env profile.Nomad s.v s with
  | .panic s1 => .panic s1
  | .done r (some _) s1 =>
    .error ("error reading " ++ backend ++ " creds for profile " ++ name)
      { s1 with profileCache := { s1.profileCache with Nomad := r } }
  | .done r none s1 => .ok { s1 with profileCache := { s1.profileCache with Nomad := r } }

/-- Lines 105-116: the Vault address, static token and unseal key. -/
def UseProfile.vaultStatic (profile : profileStruct) (s : State) : State :=
  let s1 : State :=
    if profile.Vault.Server ≠ "" then
      { s with v := { s.v with address := profile.Vault.Server } }.write
        ("export VAULT_ADDR=" ++ profile.Vault.Server ++ "\n")
    else s
  let s2 : State :=
    if profile.Vault.Auth.Token ≠ "" then
      s1.write ("export VAULT_TOKEN=" ++ profile.Vault.Auth.Token ++ "\n")
    else s1
  if profile.Vault.Auth.UnsealToken ≠ "" then
    s2.write ("export VAULT_UNSEAL_KEY=" ++ profile.Vault.Auth.UnsealToken ++ "\n")
  else s2

/-- Lines 121-141: reuse or renew the cached Vault record. -/
def UseProfile.vaultCached (env : Env) (name : String) (profile : profileStruct)
    (s : State) : Result :=
  if s.profileCache.Vault.Auth.Token ≠ "" then
    if s.profileCache.Vault.Auth.ExpireTime ≠ "" then
      match env.timeParse s.profileCache.Vault.Auth.ExpireTime with
      | none => UseProfile.loginVault env name profile s
      | some et =>
        if et < env.now s.tick then UseProfile.loginVault env name profile s.step
        else .ok s.step
    else .ok s
  else UseProfile.loginVault env name profile s

/-- Lines 118-146: the Vault auth method; only "github" has a case. -/
def UseProfile.vaultDerived (env : Env) (name : String) (profile : profileStruct)
    (s : State) : Result :=
  if profile.Vault.Auth.Method ≠ "" then
    if profile.Vault.Auth.Method = "github" then
      (UseProfile.vaultCached env name profile s).andThen fun s1 =>
        .ok ({ s1 with v := { s1.v with token := s1.profileCache.Vault.Auth.Token } }.write
          ("export VAULT_TOKEN=" ++ s1.profileCache.Vault.Auth.Token ++ "\n"))
    else .ok s
  else .ok s

/-- Lines 105-146: the Vault block. -/
def UseProfile.vault (env : Env) (name : String) (profile : profileStruct)
    (s : State) : Result :=
  UseProfile.vaultDerived env name profile (UseProfile.vaultStatic profile s)

/-- Lines 148-154: the Consul address and static token. -/
def UseProfile.consulStatic (profile : profileStruct) (s : State) : State :=
  let s1 : State :=
    if profile.Consul.Server ≠ "" then
      s.write ("export CONSUL_HTTP_ADDR=" ++ profile.Consul.Server ++ "\n")
    else s
  if profile.Consul.Auth.Token ≠ "" then
    s1.write ("export CONSUL_HTTP_TOKEN=" ++ profile.Consul.Auth.Token ++ "\n")
  else s1

/-- Lines 157-177: reuse or renew the cached Consul record.  Line 173, taken
when the cached Consul token is empty, calls `vaultGetNomadCreds` on
`profile.Nomad` and assigns `profileCache.Nomad`. -/
def UseProfile.consulCached (env : Env) (name : String) (profile : profileStruct)
    (s : State) : Result :=
  if s.profileCache.Consul.Auth.Token ≠ "" then
    if s.profileCache.Consul.Auth.ExpireTime ≠ "" then
      match env.timeParse s.profileCache.Consul.Auth.ExpireTime with
      | none => UseProfile.readConsul env name profile s
      | some et =>
        if et < env.now s.tick then UseProfile.readConsul env name profile s.step
        else .ok s.step
    else .ok s
  else UseProfile.readNomad env "Consul" name profile s

/-- Lines 156-179: the Consul auth method "vault". -/
def UseProfile.consulDerived (env : Env) (name : String) (profile : profileStruct)
    (s : State) : Result :=
  if profile.Consul.Auth.Method = "vault" then
    (UseProfile.consulCached env name profile s).andThen fun s1 =>
      .ok (s1.write ("export CONSUL_HTTP_TOKEN=" ++ s1.profileCache.Consul.Auth.Token ++ "\n"))
  else .ok s

/-- Lines 148-179: the Consul block. -/
def UseProfile.consul (env : Env) (name : String) (profile : profileStruct)
    (s : State) : Result :=
  UseProfile.consulDerived env name profile (UseProfile.consulStatic profile s)

/-- Lines 181-187: the Nomad address and static token. -/
def UseProfile.nomadStatic (profile : profileStruct) (s : State) : State :=
  let s1 : State :=
    if profile.Nomad.Server ≠ "" then
      s.write ("export NOMAD_ADDR=" ++ profile.Nomad.Server ++ "\n")
    else s
  if profile.Nomad.Auth.Token ≠ "" then
    s1.write ("export NOMAD_TOKEN=" ++ profile.Nomad.Auth.Token ++ "\n")
  else s1

/-- Lines 190-210: reuse or renew the cached Nomad record. -/
def UseProfile.nomadCached (env : Env) (name : String) (profile : profileStruct)
    (s : State) : Result :=
  if s.profileCache.Nomad.Auth.Token ≠ "" then
    if s.profileCache.Nomad.Auth.ExpireTime ≠ "" then
      match env.timeParse s.profileCache.Nomad.Auth.ExpireTime with
      | none => UseProfile.readNomad env "Nomad" name profile s
      | some et =>
        if et < env.now s.tick then UseProfile.readNomad env "Nomad" name profile s.step
        else .ok s.step
    else .ok s
  else UseProfile.readNomad env "Nomad" name profile s

/-- Lines 189-212: the Nomad auth method "vault". -/
def UseProfile.nomadDerived (env : Env) (name : String) (profile : profileStruct)
    (s : State) : Result :=
  if profile.Nomad.Auth.Method = "vault" then
    (UseProfile.nomadCached env name profile s).andThen fun s1 =>
      .ok (s1.write ("export NOMAD_TOKEN=" ++ s1.profileCache.Nomad.Auth.Token ++ "\n"))
  else .ok s

/-- Lines 181-212: the Nomad block. -/
def UseProfile.nomad (env : Env) (name : String) (profile : profileStruct)
    (s : State) : Result :=
  UseProfile.nomadDerived env name profile (UseProfile.nomadStatic profile s)

/-- Lines 214-240: the map write (a panic on a nil map), the temporary file
(line 219 panics on the nil file it formats), the YAML write, the encryption
(its error is dropped) and the print. -/
def UseProfile.persist (env : Env) (name : String) (profilesCache : Option profiles)
    (s : State) : Result :=
  match profilesCache with
  | none => .panic s
  | some m =>
    let m1 := m.set name s.profileCache
    match env.tempFile with
    | none => .panic s
    | some tmp =>
      if env.yamlMarshalFails then .error ("cache generation failed for profile " ++ name) s
      else if env.writeFileFails then .error ("can\x27t write to cache temp file " ++ tmp) s
      else
        let s1 : State := { s with wrote := some m1 }
        match getCacheFile env with
        | none => .panic s1
        | some cacheFile =>
          let s2 : State :=
            match encryptFile env tmp cacheFile with
            | some _ => s1
            | none => { s1 with stored := some m1 }
          .ok { s2 with stdout := s2.stdout ++ [String.join s2.printingBuffer] }

/-- Lines 100-212: the client and the three blocks in source order. -/
def UseProfile.blocks (env : Env) (name : String) (profile : profileStruct)
    (s : State) : Result :=
  (((UseProfile.client env s).andThen (UseProfile.vault env name profile)).andThen
    (UseProfile.consul env name profile)).andThen
    (UseProfile.nomad env name profile)

/-- Lines 100-240 for a loaded profile: the client and the blocks, then the
write-back and the print. -/
def UseProfile.run (env : Env) (name : String) (profile : profileStruct)
    (profilesCache : Option profiles) (s : State) : Result :=
  (UseProfile.blocks env name profile s).andThen (UseProfile.persist env name profilesCache)

/-- Lines 58-241, `UseProfile`. -/
def UseProfile (env : Env) : Result :=
  match UseProfile.load env with
  | .stop r => r
  | .ready name profile profilesCache s => UseProfile.run env name profile profilesCache s

/-! ## Vocabulary of the statements -/

/-- The three backends, in the order of their blocks. -/
inductive Backend where
  | vault
  | consul
  | nomad
deriving DecidableEq, Repr

/-- The refresh driver of a backend. -/
def Backend.driver : Backend → Driver
  | .vault => .vaultLoginGitHub
  | .consul => .vaultGetConsulCreds
  | .nomad => .vaultGetNomadCreds

/-- The `Auth` part of a backend's record in a `profileStruct`. -/
def Backend.auth (b : Backend) (p : profileStruct) : authConfig :=
  match b with
  | .vault => p.Vault.Auth
  | .consul => p.Consul.Auth
  | .nomad => p.Nomad.Auth

/-- The `Server` part of a backend's record in a `profileStruct`. -/
def Backend.server (b : Backend) (p : profileStruct) : String :=
  match b with
  | .vault => p.Vault.Server
  | .consul => p.Consul.Server
  | .nomad => p.Nomad.Server

/-- Overwrite a backend's record in a `profileStruct`. -/
def Backend.put (b : Backend) (p : profileStruct) (a : authConfig) (srv : String) :
    profileStruct :=
  match b with
  | .vault => { p with Vault := { Auth := a, Server := srv } }
  | .consul => { p with Consul := { Auth := a, Server := srv } }
  | .nomad => { p with Nomad := { Auth := a, Server := srv } }

/-- The profile declares the derived auth method of the backend: "github" for
Vault (line 120), "vault" for Consul (line 156) and Nomad (line 189). -/
def Backend.derived (b : Backend) (profile : profileStruct) : Prop :=
  match b with
  | .vault => profile.Vault.Auth.Method = "github"
  | .consul => profile.Consul.Auth.Method = "vault"
  | .nomad => profile.Nomad.Auth.Method = "vault"

/-- The variable that carries a backend's token. -/
def Backend.tokenKey : Backend → String
  | .vault => "VAULT_TOKEN"
  | .consul => "CONSUL_HTTP_TOKEN"
  | .nomad => "NOMAD_TOKEN"

/-- The text `fmt.Sprintf("export KEY=%s\n", value)`. -/
def exportLine (key value : String) : String :=
  "export " ++ key ++ "=" ++ value ++ "\n"

/-- The keys of the export lines, in the order of the `WriteString` calls of
lines 107, 111, 115, 143, 149, 153, 178, 182, 186 and 211. -/
def exportOrder : List String :=
  ["VAULT_ADDR", "VAULT_TOKEN", "VAULT_UNSEAL_KEY", "VAULT_TOKEN",
   "CONSUL_HTTP_ADDR", "CONSUL_HTTP_TOKEN", "CONSUL_HTTP_TOKEN",
   "NOMAD_ADDR", "NOMAD_TOKEN", "NOMAD_TOKEN"]

/-- The notice `decryptFile` writes to standard output (line 324). -/
def decryptNotice (filePath : String) : String :=
  "# Decrypting " ++ filePath ++ " using keybase \n"

/-- The state in which the run enters the block of a backend, when it gets
there: after the client for Vault, after the Vault block for Consul, after
the Consul block for Nomad. -/
def Backend.entry (env : Env) (name : String) (profile : profileStruct) (s : State) :
    Backend → Result
  | .vault => UseProfile.client env s
  | .consul => (UseProfile.client env s).andThen (UseProfile.vault env name profile)
  | .nomad =>
    ((UseProfile.client env s).andThen (UseProfile.vault env name profile)).andThen
      (UseProfile.consul env name profile)

/-- The driver of the backend returned the record now in the backend's slot
of `profileCache`, without error. -/
def Fresh (b : Backend) (s : State) : Prop :=
  Event.ret b.driver (b.auth s.profileCache) (b.server s.profileCache) none ∈ s.trace

/-- An event that records a driver returning an error. -/
def Event.failed : Event → Prop
  | .ret _ _ _ (some _) => True
  | _ => False

/-- The state after `k` more outside calls and the events `t`. -/
def State.after (s : State) (k : Nat) (t : List Event) : State :=
  { s with tick := s.tick + k, trace := s.trace ++ t }

/-- What one call of a backend's driver, with its assignment and error check,
does to the state. -/
inductive Renewal (b : Backend) (s : State) : Result → Prop where
  | ok (k : Nat) (t : List Event) (a : authConfig) (srv : String) (s1 : State)
      (hs : s1 = { s.after k t with profileCache := b.put s.profileCache a srv })
      (hcall : ∀ d, Event.call d ∈ t ↔ d = b.driver)
      (hret : Event.ret b.driver a srv none ∈ t)
      (hclean : ∀ e ∈ t, ¬ e.failed) : Renewal b s (.ok s1)
  | error (msg : String) (k : Nat) (t : List Event) (a : authConfig) (srv : String)
      (s1 : State)
      (hs : s1 = { s.after k t with profileCache := b.put s.profileCache a srv })
      (hcall : ∀ d, Event.call d ∈ t ↔ d = b.driver) : Renewal b s (.error msg s1)
  | panic (k : Nat) (t : List Event) (s1 : State)
      (hs : s1 = s.after k t)
      (hcall : ∀ d, Event.call d ∈ t ↔ d = b.driver)
      (hclean : ∀ e ∈ t, ¬ e.failed) : Renewal b s (.panic s1)

/-- The backend whose driver the block of `b` calls when the cached token of
`b` is empty: line 173 is in the Consul block and calls the Nomad driver. -/
def Backend.onEmpty : Backend → Backend
  | .vault => .vault
  | .consul => .nomad
  | .nomad => .nomad

/-- The five ways through the reuse-or-renew statement of a block (lines
121-141, 157-177, 190-210), for the record `a` cached for backend `b`. -/
inductive Settled (env : Env) (b : Backend) (s : State) : Result → Prop where
  | keep (htok : (b.auth s.profileCache).Token ≠ "")
      (hexp : (b.auth s.profileCache).ExpireTime = "") : Settled env b s (.ok s)
  | current (et : Time) (htok : (b.auth s.profileCache).Token ≠ "")
      (hexp : (b.auth s.profileCache).ExpireTime ≠ "")
      (hparse : env.timeParse (b.auth s.profileCache).ExpireTime = some et)
      (hnow : ¬ et < env.now s.tick) : Settled env b s (.ok s.step)
  | stale (et : Time) (r : Result) (htok : (b.auth s.profileCache).Token ≠ "")
      (hexp : (b.auth s.profileCache).ExpireTime ≠ "")
      (hparse : env.timeParse (b.auth s.profileCache).ExpireTime = some et)
      (hnow : et < env.now s.tick) (hr : Renewal b s.step r) : Settled env b s r
  | corrupt (r : Result) (htok : (b.auth s.profileCache).Token ≠ "")
      (hexp : (b.auth s.profileCache).ExpireTime ≠ "")
      (hparse : env.timeParse (b.auth s.profileCache).ExpireTime = none)
      (hr : Renewal b s r) : Settled env b s r
  | absent (r : Result) (htok : (b.auth s.profileCache).Token = "")
      (hr : Renewal b.onEmpty s r) : Settled env b s r

/-- The block ended by returning an error. -/
def Result.isError : Result → Prop
  | .error _ _ => True
  | _ => False

/-- What a stretch of the three blocks that calls only drivers in `D` may do
to the state `s`: standard output and the written cache stay as they are, the
log and the buffer only grow, the log gains calls of drivers in `D` only and,
unless the stretch returns an error, no failed return; the cache slots of the
other drivers stay as they are. -/
structure Advances (D : List Driver) (s : State) (r : Result) : Prop where
  stdout : r.state.stdout = s.stdout
  wrote : r.state.wrote = s.wrote
  stored : r.state.stored = s.stored
  trace : ∃ t, r.state.trace = s.trace ++ t ∧ (∀ d, Event.call d ∈ t → d ∈ D) ∧
    (¬ r.isError → ∀ e ∈ t, ¬ e.failed)
  buffer : ∃ l, r.state.printingBuffer = s.printingBuffer ++ l
  vaultSlot : Driver.vaultLoginGitHub ∉ D → r.state.profileCache.Vault = s.profileCache.Vault
  consulSlot : Driver.vaultGetConsulCreds ∉ D →
    r.state.profileCache.Consul = s.profileCache.Consul
  nomadSlot : Driver.vaultGetNomadCreds ∉ D → r.state.profileCache.Nomad = s.profileCache.Nomad

/-- The drivers a backend's block calls: line 173 puts the Nomad driver in the
Consul block. -/
def Backend.drivers : Backend → List Driver
  | .vault => [.vaultLoginGitHub]
  | .consul => [.vaultGetConsulCreds, .vaultGetNomadCreds]
  | .nomad => [.vaultGetNomadCreds]

/-- The block of a backend. -/
def Backend.block : Backend → Env → String → profileStruct → State → Result
  | .vault => UseProfile.vault
  | .consul => UseProfile.consul
  | .nomad => UseProfile.nomad

/-- The statements after the reuse-or-renew statement of a block: lines
142-143 (the client token is set too), 178, 211. -/
def Backend.emit (b : Backend) (s : State) : State :=
  match b with
  | .vault =>
    { s with v := { s.v with token := s.profileCache.Vault.Auth.Token } }.write
      ("export VAULT_TOKEN=" ++ s.profileCache.Vault.Auth.Token ++ "\n")
  | .consul => s.write ("export CONSUL_HTTP_TOKEN=" ++ s.profileCache.Consul.Auth.Token ++ "\n")
  | .nomad => s.write ("export NOMAD_TOKEN=" ++ s.profileCache.Nomad.Auth.Token ++ "\n")

/-- The static lines of a backend's block: lines 105-116, 148-154, 181-187. -/
def Backend.static : Backend → profileStruct → State → State
  | .vault => UseProfile.vaultStatic
  | .consul => UseProfile.consulStatic
  | .nomad => UseProfile.nomadStatic

/-- The reuse-or-renew statement of a backend's block. -/
def Backend.cachedStep : Backend → Env → String → profileStruct → State → Result
  | .vault => UseProfile.vaultCached
  | .consul => UseProfile.consulCached
  | .nomad => UseProfile.nomadCached

instance Backend.decidableDerived (b : Backend) (profile : profileStruct) :
    Decidable (b.derived profile) := by
  cases b <;> exact inferInstanceAs (Decidable (_ = _))

/-- The record `profilesCache[name]` of line 98: the zero value for a nil map
or an absent key. -/
def cachedRecord (pc : Option profiles) (name : String) : profileStruct :=
  match pc with
  | none => {}
  | some m => m.index name

/-- Nothing was written to the cache and standard output holds only notices
of `decryptFile`. -/
def Quiet (s : State) : Prop :=
  s.wrote = none ∧ s.stored = none ∧ ∀ x ∈ s.stdout, ∃ p, x = decryptNotice p

/-- The static pairs of a backend's block, in the order of lines 105-116,
148-154, 181-187: each is present when the profile field is not empty. -/
def Backend.staticPairs (b : Backend) (profile : profileStruct) : List (String × String) :=
  match b with
  | .vault =>
    (if profile.Vault.Server ≠ "" then [("VAULT_ADDR", profile.Vault.Server)] else []) ++
    (if profile.Vault.Auth.Token ≠ "" then [("VAULT_TOKEN", profile.Vault.Auth.Token)] else []) ++
    (if profile.Vault.Auth.UnsealToken ≠ "" then
      [("VAULT_UNSEAL_KEY", profile.Vault.Auth.UnsealToken)] else [])
  | .consul =>
    (if profile.Consul.Server ≠ "" then [("CONSUL_HTTP_ADDR", profile.Consul.Server)] else []) ++
    (if profile.Consul.Auth.Token ≠ "" then
      [("CONSUL_HTTP_TOKEN", profile.Consul.Auth.Token)] else [])
  | .nomad =>
    (if profile.Nomad.Server ≠ "" then [("NOMAD_ADDR", profile.Nomad.Server)] else []) ++
    (if profile.Nomad.Auth.Token ≠ "" then [("NOMAD_TOKEN", profile.Nomad.Auth.Token)] else [])

/-- The pairs of a backend's block: the static ones, then, for the derived
auth method, the token of the backend's record in `cache`. -/
def Backend.pairs (b : Backend) (profile cache : profileStruct) : List (String × String) :=
  b.staticPairs profile ++
    if b.derived profile then [(b.tokenKey, (b.auth cache).Token)] else []

/-- The pairs of a whole run that ends with `profileCache = cache`. -/
def exportPairs (profile cache : profileStruct) : List (String × String) :=
  Backend.vault.pairs profile cache ++ Backend.consul.pairs profile cache ++
    Backend.nomad.pairs profile cache

/-- Each pair rendered as its export line. -/
def renderPairs (kvs : List (String × String)) : List String :=
  kvs.map fun kv => exportLine kv.1 kv.2

/-- The drivers called before the block of a backend is entered. -/
def Backend.earlierDrivers : Backend → List Driver
  | .vault => []
  | .consul => [.vaultLoginGitHub]
  | .nomad => [.vaultLoginGitHub, .vaultGetConsulCreds, .vaultGetNomadCreds]

/-- The drivers called after the block of a backend. -/
def Backend.laterDrivers : Backend → List Driver
  | .vault => [.vaultGetConsulCreds, .vaultGetNomadCreds]
  | .consul => [.vaultGetNomadCreds]
  | .nomad => []

/-- The blocks that follow the block of a backend. -/
def Backend.rest (env : Env) (name : String) (profile : profileStruct) :
    Backend → State → Result
  | .vault => fun s =>
    (UseProfile.consul env name profile s).andThen (UseProfile.nomad env name profile)
  | .consul => UseProfile.nomad env name profile
  | .nomad => Result.ok

/-- The backend's driver returned the record in the backend's cache slot and
the buffer holds the token line of that record. -/
def Served (b : Backend) (s : State) : Prop :=
  Fresh b s ∧ exportLine b.tokenKey (b.auth s.profileCache).Token ∈ s.printingBuffer

/-- The event records that a driver was entered. -/
def Event.isCall : Event → Bool
  | .call _ => true
  | _ => false

/-- The event records that a driver returned. -/
def Event.isRet : Event → Bool
  | .ret _ _ _ _ => true
  | _ => false

/-- Driver entries minus driver returns in a log. -/
def pending (t : List Event) : Int :=
  (t.countP Event.isCall : Int) - (t.countP Event.isRet : Int)

/-- A driver was entered and has not returned. A driver logs its entry, and
its return on every `return` statement; the only other way out of it is the
panic of line 249, 261 or 282. -/
def DriverPanicked (s : State) : Prop :=
  0 < pending s.trace

instance DriverPanicked.decidable (s : State) : Decidable (DriverPanicked s) :=
  inferInstanceAs (Decidable (0 < pending s.trace))

/-- What a stretch of the run does to the count of drivers entered and not
returned: nothing when it falls through or returns an error; when it panics,
nothing or one more. -/
def Balanced (s : State) (r : Result) : Prop :=
  match r with
  | .ok s1 => pending s1.trace = pending s.trace
  | .error _ s1 => pending s1.trace = pending s.trace
  | .panic s1 => pending s1.trace = pending s.trace ∨ pending s1.trace = pending s.trace + 1

/-! ## Concrete runs -/

namespace Example

/-- A secrets engine that answers every read with a "secret_id" made from the
path and a lease of 60 seconds. -/
def readOk : Nat → Client → String → Except String (Option Secret) :=
  fun _ _ path => .ok (some {
    Data := fun k => if k = "secret_id" then some (.str ("secret-for-" ++ path)) else none
    LeaseDuration := 60
    Auth := none })

/-- A GitHub login that succeeds with this client token and lease. -/
def loginOk (token : String) (lease : Int) :
    Nat → Client → List (String × String) → Except String Secret :=
  fun _ _ _ => .ok { Data := fun _ => none, LeaseDuration := 0, Auth := some ⟨token, lease⟩ }

/-- The entry of another profile in the cache file. -/
def devRecord : profileStruct :=
  { Vault := { Auth := { Token := "s.dev", ExpireTime := "5000" } } }

/-- The cache map of a cache file that holds `cached` for "prod", when there
is one, and `devRecord` for "dev". -/
def cacheMap (cached : Option profileStruct) : profiles :=
  fun k => if k = "prod" then cached else if k = "dev" then some devRecord else none

/-- The profile map of the profiles file: `profile` for "prod". -/
def profileMap (profile : profileStruct) : profiles :=
  fun k => if k = "prod" then some profile else none

/-- The value of a string of decimal digits, after the digits read so far. -/
def digitsValue : List Char → Nat → Option Nat
  | [], acc => some acc
  | c :: cs, acc => if c.isDigit then digitsValue cs (10 * acc + (c.toNat - 48)) else none

/-- Parse a non-empty string of decimal digits as an instant. -/
def parseTime (s : String) : Option Time :=
  match s.data with
  | [] => none
  | cs => (digitsValue cs 0).map Int.ofNat

/-- A world for `UseProfile prod`: the profiles file holds `profile`; the
cache file, present when `cacheFile` is true, holds `cacheMap cached`; times
are written as decimal integers and read back by `parseTime`. -/
def env (profile : profileStruct) (cacheFile : Bool) (cached : Option profileStruct)
    (now : Nat → Time)
    (login : Nat → Client → List (String × String) → Except String Secret)
    (read : Nat → Client → String → Except String (Option Secret)) : Env where
  args := ["prod"]
  getenv := fun _ => ""
  homedir := .ok "/home/u"
  filepathJoin := fun a b => a ++ b
  stat := fun p =>
    if p = "/home/u/.hashi_helper_profiles.pgp" then none
    else if cacheFile then none else some "no such file or directory"
  keybaseDecrypt := fun p =>
    .ok (if p = "/home/u/.hashi_helper_profiles.pgp" then "profiles" else "cache")
  yamlUnmarshal := fun dat =>
    .ok (some (if dat = "profiles" then profileMap profile else cacheMap cached))
  newClient := some ⟨"https://vault.example:8200", ""⟩
  now := now
  timeParse := parseTime
  timeFormat := fun t => toString t
  githubAuth := login
  logicalRead := read
  tempFile := some "/tmp/hashi_helper_cache042"
  yamlMarshalFails := false
  writeFileFails := false
  keybaseEncrypt := fun _ _ => none

/-- The state after lines 64-98 in these worlds when the cache file is
absent. -/
def loadedNoCache : State :=
  { stdout := [decryptNotice "/home/u/.hashi_helper_profiles.pgp"] }

/-- The state after lines 64-98 in these worlds when the cache file holds
`cached` for "prod". -/
def loadedCache (cached : profileStruct) : State :=
  { stdout := [decryptNotice "/home/u/.hashi_helper_profiles.pgp",
      decryptNotice "/home/u/.hashi_helper_cache.pgp"]
    profileCache := cached }

/-- Consul with the derived auth method, Nomad without it, no cache yet. -/
def consulProfile : profileStruct :=
  { Consul := { Auth := { Method := "vault", CredsPath := "consul/creds/ops" } }
    Nomad := { Auth := { CredsPath := "nomad/creds/ops" } } }

/-- The world of `consulProfile` with no cache file. -/
def consulFirstUse : Env :=
  env consulProfile false none (fun k => 1000 + k) (loginOk "s.vault" 3600) readOk

/-- Consul and Nomad with the derived auth method. -/
def bothProfile : profileStruct :=
  { Consul := { Auth := { Method := "vault", CredsPath := "consul/creds/ops" } }
    Nomad := { Auth := { Method := "vault", CredsPath := "nomad/creds/ops" } } }

/-- A cache entry with a Nomad token that has no expiry and no Consul token. -/
def nomadOnlyCache : profileStruct :=
  { Nomad := { Auth := { Token := "old-nomad-token" } } }

/-- The world of `bothProfile` with `nomadOnlyCache` in the cache file. -/
def nomadCachedConsulNot : Env :=
  env bothProfile true (some nomadOnlyCache) (fun k => 1000 + k) (loginOk "s.vault" 3600) readOk

/-- Vault with the GitHub auth method. -/
def githubProfile : profileStruct :=
  { Vault := { Server := "https://vault.example:8200"
               Auth := { Method := "github", GithubToken := "ghp_abc" } } }

/-- A cache entry with a Vault token that expires at instant 1000. -/
def vaultCache : profileStruct :=
  { Vault := { Auth := { Token := "s.cached", ExpireTime := "1000" } } }

/-- The world of `githubProfile` with `vaultCache`, at instant 1000 for the
whole run. -/
def expiresNow : Env :=
  env githubProfile true (some vaultCache) (fun _ => 1000) (loginOk "s.vault" 3600) readOk

/-- A cache entry with a Vault token whose expiry does not parse. -/
def corruptCache : profileStruct :=
  { Vault := { Auth := { Token := "s.cached", ExpireTime := "tomorrow" } } }

/-- The world of `githubProfile` with `corruptCache`. -/
def corruptExpiry : Env :=
  env githubProfile true (some corruptCache) (fun k => 1000 + k) (loginOk "s.vault" 3600) readOk

/-- Vault with the GitHub auth method and no github_token. -/
def noGithubToken : profileStruct :=
  { Vault := { Auth := { Method := "github" } } }

/-- The world of `noGithubToken` with no cache file. -/
def loginFails : Env :=
  env noGithubToken false none (fun k => 1000 + k) (loginOk "s.vault" 3600) readOk

/-- Static tokens only. -/
def staticProfile : profileStruct :=
  { Vault := { Server := "https://vault.example:8200", Auth := { Token := "s.root" } }
    Consul := { Auth := { Token := "consul-root" } } }

/-- The world of `staticProfile` with no cache file. -/
def staticOnly : Env :=
  env staticProfile false none (fun k => 1000 + k) (loginOk "s.vault" 3600) readOk

/-- A world whose secrets engine answers a read with no secret and no error. -/
def emptyRead : Env :=
  env bothProfile false none (fun k => 1000 + k) (loginOk "s.vault" 3600)
    (fun _ _ _ => .ok none)

/-- Nomad with the derived auth method. -/
def nomadProfile : profileStruct :=
  { Nomad := { Auth := { Method := "vault", CredsPath := "nomad/creds/ops" } } }

/-- The world of `nomadProfile` with no cache file, whose secrets engine
answers a read with no secret and no error. -/
def nomadReadEmpty : Env :=
  env nomadProfile false none (fun k => 1000 + k) (loginOk "s.vault" 3600)
    (fun _ _ _ => .ok none)

/-- A world at instant 0 whose login grants a lease of 9223372037 seconds. -/
def longLease : Env :=
  env githubProfile false none (fun _ => 0) (loginOk "s.vault" 9223372037) readOk

end Example

/-! ## One driver call with its assignment -/

/-- Lines 125-128: the Vault login with its assignment is a renewal. -/
theorem loginVault_renewal (env : Env) (name : String) (profile : profileStruct)
    (s : State) : Renewal .vault s (UseProfile.loginVault env name profile s) := by
  unfold UseProfile.loginVault vaultLoginGitHub
  by_cases hg : profile.Vault.Auth.GithubToken = ""
  · simp only [hg, if_true]
    refine Renewal.error _ 0 [.call .vaultLoginGitHub,
      .ret .vaultLoginGitHub profile.Vault.Auth profile.Vault.Server
        (some "github_token should be provided when using GitHub Vault auth method")]
      profile.Vault.Auth profile.Vault.Server _ ?_ ?_
    · simp [State.after, State.log, Backend.put]
    · intro d; simp [Backend.driver]
  · simp only [hg, if_false]
    generalize hm : ((if profile.Vault.Auth.GithubMount ≠ "" then
      [("mount", profile.Vault.Auth.GithubMount)] else []) ++
      [("token", profile.Vault.Auth.GithubToken)] : List (String × String)) = m
    cases h : env.githubAuth (s.log (.call .vaultLoginGitHub)).tick s.v m with
    | error e =>
      refine Renewal.error _ 1 [.call .vaultLoginGitHub, .githubAuth m,
        .ret .vaultLoginGitHub profile.Vault.Auth profile.Vault.Server (some e)]
        profile.Vault.Auth profile.Vault.Server _ ?_ ?_
      · simp [State.after, State.log, State.step, Backend.put]
      · intro d; simp [Backend.driver]
    | ok secret =>
      cases h2 : secret.Auth with
      | none =>
        simp only [h2]
        refine Renewal.panic 1 [.call .vaultLoginGitHub, .githubAuth m] _ ?_ ?_ ?_
        · simp [State.after, State.log, State.step]
        · intro d; simp [Backend.driver]
        · simp [Event.failed]
      | some a =>
        simp only [h2]
        refine Renewal.ok 2 [.call .vaultLoginGitHub, .githubAuth m,
          .ret .vaultLoginGitHub { profile.Vault.Auth with
            Token := a.ClientToken
            ExpireTime := env.timeFormat (expiryAfter (env.now (s.tick + 1)) a.LeaseDuration) }
            profile.Vault.Server none] { profile.Vault.Auth with
            Token := a.ClientToken
            ExpireTime := env.timeFormat (expiryAfter (env.now (s.tick + 1)) a.LeaseDuration) }
            profile.Vault.Server _ ?_ ?_ ?_ ?_
        · simp [State.after, State.log, State.step, Backend.put]
        · intro d; simp [Backend.driver]
        · simp [Backend.driver]
        · simp [Event.failed]

/-- Lines 161-164: the Consul read with its assignment is a renewal. -/
theorem readConsul_renewal (env : Env) (name : String) (profile : profileStruct)
    (s : State) : Renewal .consul s (UseProfile.readConsul env name profile s) := by
  unfold UseProfile.readConsul vaultGetConsulCreds readFromVault
  cases h : env.logicalRead (s.log (.call .vaultGetConsulCreds)).tick s.v
      profile.Consul.Auth.CredsPath with
  | error e =>
    refine Renewal.error _ 1 [.call .vaultGetConsulCreds,
      .logicalRead profile.Consul.Auth.CredsPath,
      .ret .vaultGetConsulCreds profile.Consul.Auth profile.Consul.Server (some e)]
      profile.Consul.Auth profile.Consul.Server _ ?_ ?_
    · simp [State.after, State.log, State.step, Backend.put]
    · intro d; simp [Backend.driver]
  | ok creds =>
    cases creds with
    | none =>
      refine Renewal.panic 1 [.call .vaultGetConsulCreds,
        .logicalRead profile.Consul.Auth.CredsPath] _ ?_ ?_ ?_
      · simp [State.after, State.log, State.step]
      · intro d; simp [Backend.driver]
      · simp [Event.failed]
    | some r =>
      cases h2 : r.Data "secret_id" with
      | none =>
        simp only [h2]
        refine Renewal.panic 1 [.call .vaultGetConsulCreds,
          .logicalRead profile.Consul.Auth.CredsPath] _ ?_ ?_ ?_
        · simp [State.after, State.log, State.step]
        · intro d; simp [Backend.driver]
        · simp [Event.failed]
      | some val =>
        cases val with
        | other =>
          simp only [h2]
          refine Renewal.panic 1 [.call .vaultGetConsulCreds,
            .logicalRead profile.Consul.Auth.CredsPath] _ ?_ ?_ ?_
          · simp [State.after, State.log, State.step]
          · intro d; simp [Backend.driver]
          · simp [Event.failed]
        | str tok =>
          simp only [h2]
          refine Renewal.ok 2 [.call .vaultGetConsulCreds,
            .logicalRead profile.Consul.Auth.CredsPath,
            .ret .vaultGetConsulCreds { profile.Consul.Auth with
              Token := tok
              ExpireTime := env.timeFormat (expiryAfter (env.now (s.tick + 1)) r.LeaseDuration) }
              profile.Consul.Server none] { profile.Consul.Auth with
              Token := tok
              ExpireTime := env.timeFormat (expiryAfter (env.now (s.tick + 1)) r.LeaseDuration) }
              profile.Consul.Server _ ?_ ?_ ?_ ?_
          · simp [State.after, State.log, State.step, Backend.put]
          · intro d; simp [Backend.driver]
          · simp [Backend.driver]
          · simp [Event.failed]

/-- Lines 173-176 and 194-197: the Nomad read with its assignment is a
renewal, whatever backend the error message names. -/
theorem readNomad_renewal (env : Env) (backend name : String) (profile : profileStruct)
    (s : State) : Renewal .nomad s (UseProfile.readNomad env backend name profile s) := by
  unfold UseProfile.readNomad vaultGetNomadCreds readFromVault
  cases h : env.logicalRead (s.log (.call .vaultGetNomadCreds)).tick s.v
      profile.Nomad.Auth.CredsPath with
  | error e =>
    refine Renewal.error _ 1 [.call .vaultGetNomadCreds,
      .logicalRead profile.Nomad.Auth.CredsPath,
      .ret .vaultGetNomadCreds profile.Nomad.Auth profile.Nomad.Server (some e)]
      profile.Nomad.Auth profile.Nomad.Server _ ?_ ?_
    · simp [State.after, State.log, State.step, Backend.put]
    · intro d; simp [Backend.driver]
  | ok creds =>
    cases creds with
    | none =>
      refine Renewal.panic 1 [.call .vaultGetNomadCreds,
        .logicalRead profile.Nomad.Auth.CredsPath] _ ?_ ?_ ?_
      · simp [State.after, State.log, State.step]
      · intro d; simp [Backend.driver]
      · simp [Event.failed]
    | some r =>
      cases h2 : r.Data "secret_id" with
      | none =>
        simp only [h2]
        refine Renewal.panic 1 [.call .vaultGetNomadCreds,
          .logicalRead profile.Nomad.Auth.CredsPath] _ ?_ ?_ ?_
        · simp [State.after, State.log, State.step]
        · intro d; simp [Backend.driver]
        · simp [Event.failed]
      | some val =>
        cases val with
        | other =>
          simp only [h2]
          refine Renewal.panic 1 [.call .vaultGetNomadCreds,
            .logicalRead profile.Nomad.Auth.CredsPath] _ ?_ ?_ ?_
          · simp [State.after, State.log, State.step]
          · intro d; simp [Backend.driver]
          · simp [Event.failed]
        | str tok =>
          simp only [h2]
          refine Renewal.ok 2 [.call .vaultGetNomadCreds,
            .logicalRead profile.Nomad.Auth.CredsPath,
            .ret .vaultGetNomadCreds { profile.Nomad.Auth with
              Token := tok
              ExpireTime := env.timeFormat (expiryAfter (env.now (s.tick + 1)) r.LeaseDuration) }
              profile.Nomad.Server none] { profile.Nomad.Auth with
              Token := tok
              ExpireTime := env.timeFormat (expiryAfter (env.now (s.tick + 1)) r.LeaseDuration) }
              profile.Nomad.Server _ ?_ ?_ ?_ ?_
          · simp [State.after, State.log, State.step, Backend.put]
          · intro d; simp [Backend.driver]
          · simp [Backend.driver]
          · simp [Event.failed]

/-! ## Reuse or renew -/

/-- Lines 121-141 take one of the five ways. -/
theorem vaultCached_settled (env : Env) (name : String) (profile : profileStruct)
    (s : State) : Settled env .vault s (UseProfile.vaultCached env name profile s) := by
  unfold UseProfile.vaultCached
  by_cases htok : s.profileCache.Vault.Auth.Token = ""
  · rw [if_neg (by simpa using htok)]
    exact Settled.absent _ htok (loginVault_renewal env name profile s)
  · rw [if_pos htok]
    by_cases hexp : s.profileCache.Vault.Auth.ExpireTime = ""
    · rw [if_neg (by simpa using hexp)]
      exact Settled.keep htok hexp
    · rw [if_pos hexp]
      cases hp : env.timeParse s.profileCache.Vault.Auth.ExpireTime with
      | none => exact Settled.corrupt _ htok hexp hp (loginVault_renewal env name profile s)
      | some et =>
        by_cases hnow : et < env.now s.tick
        · simp only [hnow, if_true]
          exact Settled.stale et _ htok hexp hp hnow (loginVault_renewal env name profile s.step)
        · simp only [hnow, if_false]
          exact Settled.current et htok hexp hp hnow

/-- Lines 157-177 take one of the five ways; the way of an empty cached token
renews Nomad. -/
theorem consulCached_settled (env : Env) (name : String) (profile : profileStruct)
    (s : State) : Settled env .consul s (UseProfile.consulCached env name profile s) := by
  unfold UseProfile.consulCached
  by_cases htok : s.profileCache.Consul.Auth.Token = ""
  · rw [if_neg (by simpa using htok)]
    exact Settled.absent _ htok (readNomad_renewal env "Consul" name profile s)
  · rw [if_pos htok]
    by_cases hexp : s.profileCache.Consul.Auth.ExpireTime = ""
    · rw [if_neg (by simpa using hexp)]
      exact Settled.keep htok hexp
    · rw [if_pos hexp]
      cases hp : env.timeParse s.profileCache.Consul.Auth.ExpireTime with
      | none => exact Settled.corrupt _ htok hexp hp (readConsul_renewal env name profile s)
      | some et =>
        by_cases hnow : et < env.now s.tick
        · simp only [hnow, if_true]
          exact Settled.stale et _ htok hexp hp hnow (readConsul_renewal env name profile s.step)
        · simp only [hnow, if_false]
          exact Settled.current et htok hexp hp hnow

/-- Lines 190-210 take one of the five ways. -/
theorem nomadCached_settled (env : Env) (name : String) (profile : profileStruct)
    (s : State) : Settled env .nomad s (UseProfile.nomadCached env name profile s) := by
  unfold UseProfile.nomadCached
  by_cases htok : s.profileCache.Nomad.Auth.Token = ""
  · rw [if_neg (by simpa using htok)]
    exact Settled.absent _ htok (readNomad_renewal env "Nomad" name profile s)
  · rw [if_pos htok]
    by_cases hexp : s.profileCache.Nomad.Auth.ExpireTime = ""
    · rw [if_neg (by simpa using hexp)]
      exact Settled.keep htok hexp
    · rw [if_pos hexp]
      cases hp : env.timeParse s.profileCache.Nomad.Auth.ExpireTime with
      | none => exact Settled.corrupt _ htok hexp hp (readNomad_renewal env "Nomad" name profile s)
      | some et =>
        by_cases hnow : et < env.now s.tick
        · simp only [hnow, if_true]
          exact Settled.stale et _ htok hexp hp hnow
            (readNomad_renewal env "Nomad" name profile s.step)
        · simp only [hnow, if_false]
          exact Settled.current et htok hexp hp hnow

/-- The reuse-or-renew statement of every block takes one of the five ways. -/
theorem cachedStep_settled (b : Backend) (env : Env) (name : String)
    (profile : profileStruct) (s : State) :
    Settled env b s (b.cachedStep env name profile s) := by
  cases b
  · exact vaultCached_settled env name profile s
  · exact consulCached_settled env name profile s
  · exact nomadCached_settled env name profile s

/-- A block is its static lines, then, for the derived auth method, the
reuse-or-renew statement and the token line. -/
theorem block_eq (b : Backend) (env : Env) (name : String) (profile : profileStruct)
    (s : State) :
    b.block env name profile s =
      if b.derived profile then
        (b.cachedStep env name profile (b.static profile s)).andThen fun s1 => .ok (b.emit s1)
      else .ok (b.static profile s) := by
  cases b
  · simp only [Backend.block, Backend.derived, Backend.cachedStep, Backend.static,
      UseProfile.vault, UseProfile.vaultDerived]
    by_cases h : profile.Vault.Auth.Method = "github"
    · simp [h, Backend.emit]
    · simp [h]
  · simp only [Backend.block, Backend.derived, Backend.cachedStep, Backend.static,
      UseProfile.consul, UseProfile.consulDerived]
    by_cases h : profile.Consul.Auth.Method = "vault"
    · simp [h, Backend.emit]
    · simp [h]
  · simp only [Backend.block, Backend.derived, Backend.cachedStep, Backend.static,
      UseProfile.nomad, UseProfile.nomadDerived]
    by_cases h : profile.Nomad.Auth.Method = "vault"
    · simp [h, Backend.emit]
    · simp [h]

/-! ## Frames -/

/-- One renewal advances the state and calls only its own driver. -/
theorem renewal_advances {b : Backend} {s : State} {r : Result} (h : Renewal b s r) :
    Advances [b.driver] s r := by
  cases h with
  | ok k t a srv s1 hs hcall hret hclean =>
    subst hs
    refine ⟨rfl, rfl, rfl, ⟨t, rfl, ?_, fun _ => hclean⟩, ⟨[], by simp [Result.state, State.after]⟩, ?_, ?_, ?_⟩
    · intro d hd; simp [(hcall d).1 hd]
    all_goals cases b <;> simp [Backend.driver, Result.state, State.after, Backend.put]
  | error msg k t a srv s1 hs hcall =>
    subst hs
    refine ⟨rfl, rfl, rfl, ⟨t, rfl, ?_, fun h => absurd trivial h⟩, ⟨[], by simp [Result.state, State.after]⟩, ?_, ?_, ?_⟩
    · intro d hd; simp [(hcall d).1 hd]
    all_goals cases b <;> simp [Backend.driver, Result.state, State.after, Backend.put]
  | panic k t s1 hs hcall hclean =>
    subst hs
    refine ⟨rfl, rfl, rfl, ⟨t, rfl, ?_, fun _ => hclean⟩, ⟨[], by simp [Result.state, State.after]⟩, ?_, ?_, ?_⟩
    · intro d hd; simp [(hcall d).1 hd]
    all_goals simp [Result.state, State.after]

/-- A stretch that calls fewer drivers calls no more. -/
theorem Advances.mono {D D' : List Driver} {s : State} {r : Result} (h : Advances D s r)
    (hD : ∀ d ∈ D, d ∈ D') : Advances D' s r := by
  obtain ⟨h1, h2, h3, ⟨t, ht, hc, hf⟩, h5, h6, h7, h8⟩ := h
  exact ⟨h1, h2, h3, ⟨t, ht, fun d hd => hD d (hc d hd), hf⟩, h5,
    fun hn => h6 (fun hm => hn (hD _ hm)), fun hn => h7 (fun hm => hn (hD _ hm)),
    fun hn => h8 (fun hm => hn (hD _ hm))⟩

/-- Falling through without a change advances. -/
theorem Advances.refl (D : List Driver) (s : State) : Advances D s (.ok s) :=
  ⟨rfl, rfl, rfl, ⟨[], by simp [Result.state], by simp, by simp⟩, ⟨[], by simp [Result.state]⟩,
    fun _ => rfl, fun _ => rfl, fun _ => rfl⟩

/-- Two stretches in sequence advance. -/
theorem Advances.andThen {D : List Driver} {s : State} {r : Result} {f : State → Result}
    (h : Advances D s r) (hf : ∀ s1, r = .ok s1 → Advances D s1 (f s1)) :
    Advances D s (r.andThen f) := by
  cases r with
  | error msg s1 => exact h
  | panic s1 => exact h
  | ok s1 =>
    have h' := hf s1 rfl
    obtain ⟨h1, h2, h3, ⟨t, ht, hc, hcl⟩, ⟨l, hl⟩, h6, h7, h8⟩ := h
    obtain ⟨g1, g2, g3, ⟨t', ht', hc', hcl'⟩, ⟨l', hl'⟩, g6, g7, g8⟩ := h'
    simp only [Result.state] at h1 h2 h3 ht hl h6 h7 h8 hcl
    simp only [Result.andThen]
    refine ⟨g1.trans h1, g2.trans h2, g3.trans h3, ⟨t ++ t', ?_, ?_, ?_⟩, ⟨l ++ l', ?_⟩,
      fun hn => (g6 hn).trans (h6 hn), fun hn => (g7 hn).trans (h7 hn),
      fun hn => (g8 hn).trans (h8 hn)⟩
    · rw [ht', ht, List.append_assoc]
    · intro d hd
      rcases List.mem_append.1 hd with hd | hd
      · exact hc d hd
      · exact hc' d hd
    · intro hne e he
      rcases List.mem_append.1 he with he | he
      · exact hcl (by simp [Result.isError]) e he
      · exact hcl' hne e he
    · rw [hl', hl, List.append_assoc]

/-- A state that differs from `s` in the clock count, the client and a longer
buffer only can stand in for `s` at the start of a stretch. -/
theorem Advances.from {D : List Driver} {s s' : State} {r : Result} (h : Advances D s' r)
    (h1 : s'.stdout = s.stdout) (h2 : s'.wrote = s.wrote) (h3 : s'.stored = s.stored)
    (h4 : s'.trace = s.trace) (h5 : ∃ l, s'.printingBuffer = s.printingBuffer ++ l)
    (h6 : s'.profileCache = s.profileCache) : Advances D s r := by
  obtain ⟨g1, g2, g3, ⟨t, ht, hc, hcl⟩, ⟨l, hl⟩, g6, g7, g8⟩ := h
  obtain ⟨l0, hl0⟩ := h5
  refine ⟨g1.trans h1, g2.trans h2, g3.trans h3, ⟨t, by rw [ht, h4], hc, hcl⟩,
    ⟨l0 ++ l, by rw [hl, hl0, List.append_assoc]⟩, ?_, ?_, ?_⟩
  · intro hn; rw [g6 hn, h6]
  · intro hn; rw [g7 hn, h6]
  · intro hn; rw [g8 hn, h6]

/-- The static lines leave everything but the buffer and the client. -/
theorem static_frame (b : Backend) (profile : profileStruct) (s : State) :
    (b.static profile s).stdout = s.stdout ∧ (b.static profile s).wrote = s.wrote ∧
    (b.static profile s).stored = s.stored ∧ (b.static profile s).trace = s.trace ∧
    (b.static profile s).tick = s.tick ∧
    (b.static profile s).profileCache = s.profileCache := by
  cases b
  · simp only [Backend.static, UseProfile.vaultStatic, State.write]
    split_ifs <;> simp
  · simp only [Backend.static, UseProfile.consulStatic, State.write]
    split_ifs <;> simp
  · simp only [Backend.static, UseProfile.nomadStatic, State.write]
    split_ifs <;> simp

/-- The static lines only extend the buffer. -/
theorem static_buffer (b : Backend) (profile : profileStruct) (s : State) :
    ∃ l, (b.static profile s).printingBuffer = s.printingBuffer ++ l := by
  cases b
  · simp only [Backend.static, UseProfile.vaultStatic, State.write]
    split_ifs <;> simp
  · simp only [Backend.static, UseProfile.consulStatic, State.write]
    split_ifs <;> simp
  · simp only [Backend.static, UseProfile.nomadStatic, State.write]
    split_ifs <;> simp

/-- The token line advances. -/
theorem emit_advances (D : List Driver) (b : Backend) (s : State) :
    Advances D s (.ok (b.emit s)) := by
  cases b <;>
    exact ⟨rfl, rfl, rfl, ⟨[], by simp [Result.state, Backend.emit, State.write], by simp,
      by simp⟩, ⟨_, rfl⟩, fun _ => rfl, fun _ => rfl, fun _ => rfl⟩

/-- The reuse-or-renew statement of a block advances and calls only the
drivers of the block. -/
theorem settled_advances {env : Env} {b : Backend} {s : State} {r : Result}
    (h : Settled env b s r) : Advances b.drivers s r := by
  have hself : ∀ d ∈ [b.driver], d ∈ b.drivers := by
    cases b <;> simp [Backend.driver, Backend.drivers]
  have hempty : ∀ d ∈ [b.onEmpty.driver], d ∈ b.drivers := by
    cases b <;> simp [Backend.driver, Backend.drivers, Backend.onEmpty]
  cases h with
  | keep htok hexp => exact Advances.refl _ s
  | current et htok hexp hparse hnow =>
    exact (Advances.refl _ s.step).from rfl rfl rfl rfl ⟨[], by simp [State.step]⟩ rfl
  | stale et r htok hexp hparse hnow hr =>
    exact ((renewal_advances hr).mono hself).from rfl rfl rfl rfl ⟨[], by simp [State.step]⟩ rfl
  | corrupt r htok hexp hparse hr => exact (renewal_advances hr).mono hself
  | absent r htok hr => exact (renewal_advances hr).mono hempty

/-- A block advances and calls only its drivers. -/
theorem block_advances (b : Backend) (env : Env) (name : String) (profile : profileStruct)
    (s : State) : Advances b.drivers s (b.block env name profile s) := by
  obtain ⟨h1, h2, h3, h4, _, h6⟩ := static_frame b profile s
  rw [block_eq]
  split_ifs with hd
  · refine Advances.from ?_ h1 h2 h3 h4 (static_buffer b profile s) h6
    exact (settled_advances (cachedStep_settled b env name profile _)).andThen
      (fun s1 _ => emit_advances _ b s1)
  · exact (Advances.refl _ _).from h1 h2 h3 h4 (static_buffer b profile s) h6

/-! ## Loading and writing back -/

/-- Sequencing falls through only when both parts do. -/
theorem Result.andThen_eq_ok {r : Result} {f : State → Result} {s : State} :
    r.andThen f = .ok s ↔ ∃ s1, r = .ok s1 ∧ f s1 = .ok s := by
  cases r <;> simp [Result.andThen]

/-- What `decryptFile` leaves alone. -/
theorem decryptFile_frame (env : Env) (filePath : String) (s : State) :
    (decryptFile env filePath s).2.trace = s.trace ∧
    (decryptFile env filePath s).2.tick = s.tick ∧
    (decryptFile env filePath s).2.wrote = s.wrote ∧
    (decryptFile env filePath s).2.stored = s.stored ∧
    (decryptFile env filePath s).2.printingBuffer = s.printingBuffer ∧
    (decryptFile env filePath s).2.profileCache = s.profileCache ∧
    ((decryptFile env filePath s).2.stdout = s.stdout ∨
      (decryptFile env filePath s).2.stdout = s.stdout ++ [decryptNotice filePath]) := by
  unfold decryptFile
  cases env.stat filePath with
  | some err => simp
  | none =>
    cases env.keybaseDecrypt filePath with
    | error e => simp [decryptNotice]
    | ok out => simp [decryptNotice]

/-- `decryptFile` writes at most its notice. -/
theorem decryptFile_quiet (env : Env) (filePath : String) (s : State) (h : Quiet s) :
    Quiet (decryptFile env filePath s).2 := by
  obtain ⟨_, _, h3, h4, _, _, h7⟩ := decryptFile_frame env filePath s
  refine ⟨h3.trans h.1, h4.trans h.2.1, ?_⟩
  rcases h7 with h7 | h7 <;> rw [h7]
  · exact h.2.2
  · intro x hx
    rcases List.mem_append.1 hx with hx | hx
    · exact h.2.2 x hx
    · exact ⟨filePath, by simpa using hx⟩

/-- Lines 88-98, when they hand over to the blocks. -/
theorem loadCache_ready (env : Env) (name : String) (profile : profileStruct) (s : State)
    (hs : s.trace = [] ∧ s.tick = 0 ∧ s.printingBuffer = [] ∧ Quiet s)
    {name' : String} {profile' : profileStruct} {pc : Option profiles} {s0 : State}
    (h : UseProfile.loadCache env name profile s = .ready name' profile' pc s0) :
    name' = name ∧ profile' = profile ∧ s0.trace = [] ∧ s0.tick = 0 ∧ s0.printingBuffer = [] ∧ Quiet s0 ∧
    s0.profileCache = cachedRecord pc name := by
  unfold UseProfile.loadCache at h
  cases hg : getCacheFile env with
  | none => simp [hg] at h
  | some cacheFile =>
    simp only [hg] at h
    obtain ⟨f1, f2, _, _, f5, _, _⟩ := decryptFile_frame env cacheFile s
    have fq := decryptFile_quiet env cacheFile s hs.2.2.2
    rcases hdec : decryptFile env cacheFile s with ⟨⟨dat, err⟩, s1⟩
    rw [hdec] at h f1 f2 f5 fq
    simp only at f1 f2 f5 fq
    cases dat with
    | none =>
      simp only [Load.ready.injEq] at h
      obtain ⟨rfl, rfl, rfl, rfl⟩ := h
      exact ⟨rfl, rfl, f1.trans hs.1, f2.trans hs.2.1, f5.trans hs.2.2.1, fq, rfl⟩
    | some cacheDat =>
      simp only at h
      cases hy : env.yamlUnmarshal cacheDat with
      | error e => simp [hy] at h
      | ok m =>
        cases m with
        | none =>
          simp only [hy, Load.ready.injEq] at h
          obtain ⟨rfl, rfl, rfl, rfl⟩ := h
          exact ⟨rfl, rfl, f1.trans hs.1, f2.trans hs.2.1, f5.trans hs.2.2.1, fq, rfl⟩
        | some m =>
          simp only [hy, Load.ready.injEq] at h
          obtain ⟨rfl, rfl, rfl, rfl⟩ := h
          exact ⟨rfl, rfl, f1.trans hs.1, f2.trans hs.2.1, f5.trans hs.2.2.1, fq, rfl⟩

/-- Lines 64-98, when they hand over to the blocks: nothing is logged, written
or buffered yet, and `profileCache` is the entry of the cache map for the
profile name (the zero value when there is none). -/
theorem load_ready {env : Env} {name : String} {profile : profileStruct}
    {pc : Option profiles} {s0 : State}
    (h : UseProfile.load env = .ready name profile pc s0) :
    s0.trace = [] ∧ s0.tick = 0 ∧ s0.printingBuffer = [] ∧ Quiet s0 ∧
    s0.profileCache = cachedRecord pc name := by
  unfold UseProfile.load at h
  simp only at h
  split_ifs at h
  cases hg : getProfileFile env with
  | none => simp [hg] at h
  | some profileFile =>
    simp only [hg] at h
    have hq0 : Quiet ({} : State) := ⟨rfl, rfl, by simp⟩
    obtain ⟨f1, f2, _, _, f5, _, _⟩ := decryptFile_frame env profileFile {}
    have fq := decryptFile_quiet env profileFile {} hq0
    rcases hdec : decryptFile env profileFile {} with ⟨⟨dat, err⟩, s1⟩
    rw [hdec] at h f1 f2 f5 fq
    simp only at f1 f2 f5 fq
    cases err with
    | some e => simp at h
    | none =>
      cases dat with
      | none => simp at h
      | some dat =>
        simp only at h
        cases hy : env.yamlUnmarshal dat with
        | error e => simp [hy] at h
        | ok parsed =>
          simp only [hy] at h
          cases hp : parsed.bind (fun m => m (env.args.headD "")) with
          | none => simp only [hp] at h; cases h
          | some p =>
            simp only [hp] at h
            obtain ⟨rfl, rfl, g⟩ := loadCache_ready env _ _ s1 ⟨f1, f2, f5, fq⟩ h
            exact g

/-- Lines 64-98, when they end the run: with an error or a panic, nothing
logged and nothing written. -/
theorem load_stop {env : Env} {r : Result} (h : UseProfile.load env = .stop r) :
    r.state.trace = [] ∧ Quiet r.state ∧ ∀ s, r ≠ .ok s := by
  have hq0 : Quiet ({} : State) := ⟨rfl, rfl, by simp⟩
  unfold UseProfile.load at h
  simp only at h
  split_ifs at h
  · cases h; exact ⟨rfl, hq0, by simp⟩
  · cases h; exact ⟨rfl, hq0, by simp⟩
  cases hg : getProfileFile env with
  | none => simp only [hg] at h; cases h; exact ⟨rfl, hq0, by simp⟩
  | some profileFile =>
    simp only [hg] at h
    obtain ⟨f1, f2, _, _, f5, _, _⟩ := decryptFile_frame env profileFile {}
    have fq := decryptFile_quiet env profileFile {} hq0
    rcases hdec : decryptFile env profileFile {} with ⟨⟨dat, err⟩, s1⟩
    rw [hdec] at h f1 f2 f5 fq
    simp only at f1 f2 f5 fq
    cases err with
    | some e => simp only at h; cases h; exact ⟨f1, fq, by simp⟩
    | none =>
      cases dat with
      | none => simp only at h; cases h; exact ⟨f1, fq, by simp⟩
      | some dat =>
        simp only at h
        cases hy : env.yamlUnmarshal dat with
        | error e => simp only [hy] at h; cases h; exact ⟨f1, fq, by simp⟩
        | ok parsed =>
          simp only [hy] at h
          cases hp : parsed.bind (fun m => m (env.args.headD "")) with
          | none => simp only [hp] at h; cases h; exact ⟨f1, fq, by simp⟩
          | some p =>
            simp only [hp] at h
            unfold UseProfile.loadCache at h
            cases hg2 : getCacheFile env with
            | none => simp only [hg2] at h; cases h; exact ⟨f1, fq, by simp⟩
            | some cacheFile =>
              simp only [hg2] at h
              obtain ⟨e1, _, _, _, _, _, _⟩ := decryptFile_frame env cacheFile s1
              have eq := decryptFile_quiet env cacheFile s1 fq
              rcases hdec2 : decryptFile env cacheFile s1 with ⟨⟨dat2, err2⟩, s2⟩
              rw [hdec2] at h e1 eq
              simp only at e1 eq
              cases dat2 with
              | none => simp at h
              | some cacheDat =>
                simp only at h
                cases hy2 : env.yamlUnmarshal cacheDat with
                | error e => simp only [hy2] at h; cases h; exact ⟨e1.trans f1, eq, by simp⟩
                | ok m => cases m <;> simp [hy2] at h

/-- Lines 214-240 leave the log, the buffer and `profileCache`; when they
return nil the cache map with the entry of the profile name overwritten was
written and standard output got the buffer; when they return an error nothing
was written or printed. -/
theorem persist_frame (env : Env) (name : String) (pc : Option profiles) (s : State) :
    (UseProfile.persist env name pc s).state.trace = s.trace ∧
    (UseProfile.persist env name pc s).state.profileCache = s.profileCache ∧
    (UseProfile.persist env name pc s).state.printingBuffer = s.printingBuffer ∧
    (∀ s1, UseProfile.persist env name pc s = .ok s1 →
      ∃ m, pc = some m ∧ s1.wrote = some (m.set name s.profileCache) ∧
        (s1.stored = s.stored ∨ s1.stored = some (m.set name s.profileCache)) ∧
        s1.stdout = s.stdout ++ [String.join s.printingBuffer]) ∧
    ((UseProfile.persist env name pc s).isError →
      (UseProfile.persist env name pc s).state = s) := by
  unfold UseProfile.persist
  cases pc with
  | none => simp [Result.state, Result.isError]
  | some m =>
    cases env.tempFile with
    | none => simp [Result.state, Result.isError]
    | some tmp =>
      simp only
      split_ifs
      · simp [Result.state, Result.isError]
      · simp [Result.state, Result.isError]
      · cases hg : getCacheFile env with
        | none => simp [Result.state, Result.isError]
        | some cacheFile =>
          cases he : encryptFile env tmp cacheFile <;> simp [he, Result.state, Result.isError]

/-! ## The run as a whole -/

/-- Line 101-103 advance and call no driver. -/
theorem client_advances (D : List Driver) (env : Env) (s : State) :
    Advances D s (UseProfile.client env s) := by
  unfold UseProfile.client
  cases env.newClient with
  | none =>
    exact ⟨rfl, rfl, rfl, ⟨[], by simp [Result.state], by simp, by simp⟩, ⟨[], by simp [Result.state]⟩,
      fun _ => rfl, fun _ => rfl, fun _ => rfl⟩
  | some v =>
    exact ⟨rfl, rfl, rfl, ⟨[], by simp [Result.state], by simp, by simp⟩, ⟨[], by simp [Result.state]⟩,
      fun _ => rfl, fun _ => rfl, fun _ => rfl⟩

/-- Lines 100-212 advance. -/
theorem blocks_advances (env : Env) (name : String) (profile : profileStruct) (s : State) :
    Advances [.vaultLoginGitHub, .vaultGetConsulCreds, .vaultGetNomadCreds] s
      (UseProfile.blocks env name profile s) := by
  unfold UseProfile.blocks
  refine Advances.andThen (Advances.andThen (Advances.andThen (client_advances _ env s) ?_) ?_) ?_
  · intro s1 _
    exact (block_advances .vault env name profile s1).mono (by simp [Backend.drivers])
  · intro s1 _
    exact (block_advances .consul env name profile s1).mono (by simp [Backend.drivers])
  · intro s1 _
    exact (block_advances .nomad env name profile s1).mono (by simp [Backend.drivers])

/-! ## Export lines -/

/-- The format strings of the `WriteString` calls are `exportLine` at their
keys. -/
theorem exportLine_formats (x : String) :
    "export VAULT_ADDR=" ++ x ++ "\n" = exportLine "VAULT_ADDR" x ∧
    "export VAULT_TOKEN=" ++ x ++ "\n" = exportLine "VAULT_TOKEN" x ∧
    "export VAULT_UNSEAL_KEY=" ++ x ++ "\n" = exportLine "VAULT_UNSEAL_KEY" x ∧
    "export CONSUL_HTTP_ADDR=" ++ x ++ "\n" = exportLine "CONSUL_HTTP_ADDR" x ∧
    "export CONSUL_HTTP_TOKEN=" ++ x ++ "\n" = exportLine "CONSUL_HTTP_TOKEN" x ∧
    "export NOMAD_ADDR=" ++ x ++ "\n" = exportLine "NOMAD_ADDR" x ∧
    "export NOMAD_TOKEN=" ++ x ++ "\n" = exportLine "NOMAD_TOKEN" x := by
  unfold exportLine
  rw [show "export " ++ "VAULT_ADDR" ++ "=" = "export VAULT_ADDR=" from by decide]
  rw [show "export " ++ "VAULT_TOKEN" ++ "=" = "export VAULT_TOKEN=" from by decide]
  rw [show "export " ++ "VAULT_UNSEAL_KEY" ++ "=" = "export VAULT_UNSEAL_KEY=" from by decide]
  rw [show "export " ++ "CONSUL_HTTP_ADDR" ++ "=" = "export CONSUL_HTTP_ADDR=" from by decide]
  rw [show "export " ++ "CONSUL_HTTP_TOKEN" ++ "=" = "export CONSUL_HTTP_TOKEN=" from by decide]
  rw [show "export " ++ "NOMAD_ADDR" ++ "=" = "export NOMAD_ADDR=" from by decide]
  rw [show "export " ++ "NOMAD_TOKEN" ++ "=" = "export NOMAD_TOKEN=" from by decide]
  exact ⟨rfl, rfl, rfl, rfl, rfl, rfl, rfl⟩

/-- The static lines are the rendered static pairs. -/
theorem static_lines (b : Backend) (profile : profileStruct) (s : State) :
    (b.static profile s).printingBuffer =
      s.printingBuffer ++ renderPairs (b.staticPairs profile) := by
  cases b
  · simp only [Backend.static, UseProfile.vaultStatic, State.write, Backend.staticPairs,
      renderPairs]
    split_ifs <;> simp [exportLine_formats]
  · simp only [Backend.static, UseProfile.consulStatic, State.write, Backend.staticPairs,
      renderPairs]
    split_ifs <;> simp [exportLine_formats]
  · simp only [Backend.static, UseProfile.nomadStatic, State.write, Backend.staticPairs,
      renderPairs]
    split_ifs <;> simp [exportLine_formats]

/-- A line that may be absent is a sublist of the line. -/
theorem optional_sublist (c : Prop) [Decidable c] (k v : String) :
    ((if c then [(k, v)] else []).map Prod.fst).Sublist [k] := by
  split_ifs <;> simp

/-- The keys of the pairs come in the order of `exportOrder`. -/
theorem exportPairs_order (profile cache : profileStruct) :
    ((exportPairs profile cache).map Prod.fst).Sublist exportOrder := by
  have e : exportOrder = [("VAULT_ADDR")] ++ ["VAULT_TOKEN"] ++ ["VAULT_UNSEAL_KEY"] ++
      ["VAULT_TOKEN"] ++ (["CONSUL_HTTP_ADDR"] ++ ["CONSUL_HTTP_TOKEN"] ++
      ["CONSUL_HTTP_TOKEN"]) ++ (["NOMAD_ADDR"] ++ ["NOMAD_TOKEN"] ++ ["NOMAD_TOKEN"]) := rfl
  rw [e]
  simp only [exportPairs, Backend.pairs, Backend.staticPairs, Backend.derived, Backend.tokenKey,
    List.map_append]
  exact ((((optional_sublist _ _ _).append (optional_sublist _ _ _)).append
    (optional_sublist _ _ _)).append (optional_sublist _ _ _)).append
    (((optional_sublist _ _ _).append (optional_sublist _ _ _)).append
    (optional_sublist _ _ _)) |>.append
    (((optional_sublist _ _ _).append (optional_sublist _ _ _)).append
    (optional_sublist _ _ _))

/-! ## What a renewal and a block establish -/

/-- A property of the state that every step of `f` keeps is kept by
sequencing with `f`. -/
theorem Result.andThen_keeps (P : State → Prop) (r : Result) (f : State → Result)
    (hf : ∀ s, r = .ok s → P s → P (f s).state) (hr : P r.state) :
    P (r.andThen f).state := by
  cases r with
  | ok s => exact hf s rfl hr
  | error msg s => exact hr
  | panic s => exact hr

/-- Sequencing is associative. -/
theorem Result.andThen_assoc (r : Result) (f g : State → Result) :
    (r.andThen f).andThen g = r.andThen fun s => (f s).andThen g := by
  cases r <;> rfl

/-- A renewal logs the call of its driver. -/
theorem renewal_called {b : Backend} {s : State} {r : Result} (h : Renewal b s r) :
    Event.call b.driver ∈ r.state.trace := by
  cases h with
  | ok k t a srv s1 hs hcall hret hclean =>
    subst hs
    simp [Result.state, State.after, (hcall b.driver).2 rfl]
  | error msg k t a srv s1 hs hcall =>
    subst hs
    simp [Result.state, State.after, (hcall b.driver).2 rfl]
  | panic k t s1 hs hcall hclean =>
    subst hs
    simp [Result.state, State.after, (hcall b.driver).2 rfl]

/-- Reading back what `put` stored. -/
theorem Backend.auth_put (b : Backend) (p : profileStruct) (a : authConfig) (srv : String) :
    b.auth (b.put p a srv) = a ∧ b.server (b.put p a srv) = srv := by
  cases b <;> simp [Backend.auth, Backend.server, Backend.put]

/-- A renewal that falls through leaves the record its driver returned in
the slot of its backend. -/
theorem renewal_fresh {b : Backend} {s s1 : State} (h : Renewal b s (.ok s1)) :
    Fresh b s1 := by
  cases h with
  | ok k t a srv s1 hs hcall hret hclean =>
    subst hs
    simp only [Fresh, (b.auth_put _ a srv).1, (b.auth_put _ a srv).2, State.after]
    exact List.mem_append_right _ hret

/-- A renewal leaves the buffer. -/
theorem renewal_buffer {b : Backend} {s : State} {r : Result} (h : Renewal b s r) :
    r.state.printingBuffer = s.printingBuffer := by
  cases h with
  | ok k t a srv s1 hs hcall hret hclean => subst hs; rfl
  | error msg k t a srv s1 hs hcall => subst hs; rfl
  | panic k t s1 hs hcall hclean => subst hs; rfl

/-- The slot of a backend whose driver is not called stays. -/
theorem Advances.slot {D : List Driver} {s : State} {r : Result} (h : Advances D s r)
    (b : Backend) (hb : b.driver ∉ D) :
    b.auth r.state.profileCache = b.auth s.profileCache ∧
    b.server r.state.profileCache = b.server s.profileCache := by
  cases b
  · simp [Backend.auth, Backend.server, h.vaultSlot hb]
  · simp [Backend.auth, Backend.server, h.consulSlot hb]
  · simp [Backend.auth, Backend.server, h.nomadSlot hb]

/-- A logged call stays logged. -/
theorem advances_called {D : List Driver} {s : State} {r : Result} (h : Advances D s r)
    {e : Event} (he : e ∈ s.trace) : e ∈ r.state.trace := by
  obtain ⟨t, ht, _⟩ := h.trace
  rw [ht]
  exact List.mem_append_left _ he

/-- A driver outside `D` is called by the end exactly when it was called
at the start. -/
theorem Advances.called_iff {D : List Driver} {s : State} {r : Result} (h : Advances D s r)
    {d : Driver} (hd : d ∉ D) : Event.call d ∈ r.state.trace ↔ Event.call d ∈ s.trace := by
  obtain ⟨t, ht, hc, _⟩ := h.trace
  rw [ht, List.mem_append]
  exact ⟨fun h' => h'.elim id (fun h'' => absurd (hc d h'') hd), Or.inl⟩

/-- A fresh record stays fresh while its driver is not called. -/
theorem advances_fresh {D : List Driver} {s : State} {r : Result} (h : Advances D s r)
    {b : Backend} (hb : b.driver ∉ D) (hf : Fresh b s) : Fresh b r.state := by
  unfold Fresh at hf ⊢
  rw [(h.slot b hb).1, (h.slot b hb).2]
  exact advances_called h hf

/-- A served backend stays served while its driver is not called. -/
theorem Advances.served {D : List Driver} {s : State} {r : Result} (h : Advances D s r)
    {b : Backend} (hb : b.driver ∉ D) (hf : Served b s) : Served b r.state := by
  refine ⟨advances_fresh h hb hf.1, ?_⟩
  obtain ⟨l, hl⟩ := h.buffer
  rw [(h.slot b hb).1, hl]
  exact List.mem_append_left _ hf.2

/-- The reuse-or-renew statement leaves the buffer. -/
theorem settled_buffer {env : Env} {b : Backend} {s : State} {r : Result}
    (h : Settled env b s r) : r.state.printingBuffer = s.printingBuffer := by
  cases h with
  | keep htok hexp => rfl
  | current et htok hexp hparse hnow => rfl
  | stale et r htok hexp hparse hnow hr => exact (renewal_buffer hr).trans rfl
  | corrupt r htok hexp hparse hr => exact renewal_buffer hr
  | absent r htok hr => exact renewal_buffer hr

/-- After the reuse-or-renew statement a fresh record is still fresh. -/
theorem settled_fresh {env : Env} {b : Backend} {s s1 : State}
    (h : Settled env b s (.ok s1)) (hf : Fresh b s) : Fresh b s1 := by
  generalize hr : Result.ok s1 = r at h
  cases h with
  | keep htok hexp => cases hr; exact hf
  | current et htok hexp hparse hnow => cases hr; exact hf
  | stale et r htok hexp hparse hnow hr' => subst hr; exact renewal_fresh hr'
  | corrupt r htok hexp hparse hr' => subst hr; exact renewal_fresh hr'
  | absent r htok hr' =>
    subst hr
    cases b
    · exact renewal_fresh hr'
    · exact advances_fresh (renewal_advances hr') (b := .consul)
        (by simp [Backend.driver, Backend.onEmpty]) hf
    · exact renewal_fresh hr'

/-- After the reuse-or-renew statement found a cached token with an expiry
that does not parse, the record is fresh. -/
theorem Settled.fresh_of_corrupt {env : Env} {b : Backend} {s s1 : State}
    (h : Settled env b s (.ok s1)) (htok : (b.auth s.profileCache).Token ≠ "")
    (hexp : (b.auth s.profileCache).ExpireTime ≠ "")
    (hparse : env.timeParse (b.auth s.profileCache).ExpireTime = none) : Fresh b s1 := by
  generalize hr : Result.ok s1 = r at h
  cases h with
  | keep htok' hexp' => exact absurd hexp' hexp
  | current et htok' hexp' hparse' hnow => rw [hparse] at hparse'; cases hparse'
  | stale et r htok' hexp' hparse' hnow hr' => rw [hparse] at hparse'; cases hparse'
  | corrupt r htok' hexp' hparse' hr' => subst hr; exact renewal_fresh hr'
  | absent r htok' hr' => exact absurd htok' htok

/-- The reuse-or-renew statement calls the driver when the cached token has
an expiry that does not parse. -/
theorem Settled.called_of_corrupt {env : Env} {b : Backend} {s : State} {r : Result}
    (h : Settled env b s r) (htok : (b.auth s.profileCache).Token ≠ "")
    (hexp : (b.auth s.profileCache).ExpireTime ≠ "")
    (hparse : env.timeParse (b.auth s.profileCache).ExpireTime = none) :
    Event.call b.driver ∈ r.state.trace := by
  cases h with
  | keep htok' hexp' => exact absurd hexp' hexp
  | current et htok' hexp' hparse' hnow => rw [hparse] at hparse'; cases hparse'
  | stale et r htok' hexp' hparse' hnow hr' => rw [hparse] at hparse'; cases hparse'
  | corrupt r htok' hexp' hparse' hr' => exact renewal_called hr'
  | absent r htok' hr' => exact absurd htok' htok

/-! ## Blocks -/

/-- The token line leaves everything but the buffer and the client. -/
theorem emit_frame (b : Backend) (s : State) :
    (b.emit s).trace = s.trace ∧ (b.emit s).tick = s.tick ∧
    (b.emit s).profileCache = s.profileCache ∧
    (b.emit s).printingBuffer =
      s.printingBuffer ++ [exportLine b.tokenKey (b.auth s.profileCache).Token] := by
  cases b <;>
    simp [Backend.emit, State.write, Backend.tokenKey, Backend.auth, exportLine_formats]

/-- A block whose profile declares the derived auth method. -/
theorem block_derived (b : Backend) (env : Env) (name : String) (profile : profileStruct)
    (s : State) (hd : b.derived profile) :
    b.block env name profile s =
      (b.cachedStep env name profile (b.static profile s)).andThen fun s1 => .ok (b.emit s1) := by
  rw [block_eq, if_pos hd]

/-- A block whose profile does not declare the derived auth method. -/
theorem block_static (b : Backend) (env : Env) (name : String) (profile : profileStruct)
    (s : State) (hd : ¬ b.derived profile) :
    b.block env name profile s = .ok (b.static profile s) := by
  rw [block_eq, if_neg hd]

/-- A block that falls through has appended its pairs, rendered, to the
buffer; the token of the derived line is the one in the slot afterwards. -/
theorem block_ok_buffer (b : Backend) (env : Env) (name : String) (profile : profileStruct)
    (s s1 : State) (h : b.block env name profile s = .ok s1) :
    s1.printingBuffer = s.printingBuffer ++ renderPairs (b.pairs profile s1.profileCache) := by
  by_cases hd : b.derived profile
  · rw [block_derived b env name profile s hd] at h
    obtain ⟨s', hs', he⟩ := Result.andThen_eq_ok.1 h
    cases he
    have hb := settled_buffer (cachedStep_settled b env name profile (b.static profile s))
    rw [hs'] at hb
    simp only [Result.state] at hb
    obtain ⟨_, _, e3, e4⟩ := emit_frame b s'
    rw [e4, e3, hb, static_lines, Backend.pairs, if_pos hd, List.append_assoc]
    simp [renderPairs]
  · rw [block_static b env name profile s hd] at h
    cases h
    rw [static_lines, Backend.pairs, if_neg hd, List.append_nil]

/-- A block of the derived auth method that falls through serves its backend
when the record was fresh on entry, or was cached with a token and an expiry
that does not parse. -/
theorem block_served (b : Backend) (env : Env) (name : String) (profile : profileStruct)
    (s s1 : State) (hd : b.derived profile) (h : b.block env name profile s = .ok s1)
    (hs : Fresh b s ∨ ((b.auth s.profileCache).Token ≠ "" ∧
      (b.auth s.profileCache).ExpireTime ≠ "" ∧
      env.timeParse (b.auth s.profileCache).ExpireTime = none)) : Served b s1 := by
  rw [block_derived b env name profile s hd] at h
  obtain ⟨s', hs', he⟩ := Result.andThen_eq_ok.1 h
  cases he
  have hset := cachedStep_settled b env name profile (b.static profile s)
  rw [hs'] at hset
  obtain ⟨f1, f2, f3, f4, f5, f6⟩ := static_frame b profile s
  obtain ⟨e1, _, e3, e4⟩ := emit_frame b s'
  have hf : Fresh b s' := by
    rcases hs with hs | ⟨h1, h2, h3⟩
    · exact settled_fresh hset (by unfold Fresh at hs ⊢; rw [f6, f4]; exact hs)
    · exact hset.fresh_of_corrupt (by rw [f6]; exact h1) (by rw [f6]; exact h2)
        (by rw [f6]; exact h3)
  refine ⟨?_, ?_⟩
  · unfold Fresh at hf ⊢
    rw [e3, e1]
    exact hf
  · rw [e4, e3]
    simp

/-- A block of the derived auth method calls the driver when the cached
token has an expiry that does not parse. -/
theorem block_called_of_corrupt (b : Backend) (env : Env) (name : String)
    (profile : profileStruct) (s : State) (hd : b.derived profile)
    (htok : (b.auth s.profileCache).Token ≠ "")
    (hexp : (b.auth s.profileCache).ExpireTime ≠ "")
    (hparse : env.timeParse (b.auth s.profileCache).ExpireTime = none) :
    Event.call b.driver ∈ (b.block env name profile s).state.trace := by
  rw [block_derived b env name profile s hd]
  obtain ⟨_, _, _, _, _, f6⟩ := static_frame b profile s
  have hset := cachedStep_settled b env name profile (b.static profile s)
  refine Result.andThen_keeps (fun s => Event.call b.driver ∈ s.trace) _ _ ?_ ?_
  · intro s1 _ h1
    simp only [Result.state, (emit_frame b s1).1]
    exact h1
  · exact hset.called_of_corrupt (by rw [f6]; exact htok) (by rw [f6]; exact hexp)
      (by rw [f6]; exact hparse)

/-- The blocks from the block of a backend on. -/
theorem blocks_from_entry (b : Backend) (env : Env) (name : String) (profile : profileStruct)
    (s0 s : State) (h : b.entry env name profile s0 = .ok s) :
    UseProfile.blocks env name profile s0 =
      (b.block env name profile s).andThen (b.rest env name profile) := by
  unfold UseProfile.blocks
  cases b
  · simp only [Backend.entry] at h
    rw [h]
    simp only [Backend.block, Backend.rest, Result.andThen_assoc]
    rfl
  · simp only [Backend.entry] at h
    rw [h]
    rfl
  · simp only [Backend.entry] at h
    rw [h]
    cases hb : UseProfile.nomad env name profile s <;> simp [Backend.block, Backend.rest, hb, Result.andThen]

/-- The blocks after a backend's call only the later drivers. -/
theorem rest_advances (b : Backend) (env : Env) (name : String) (profile : profileStruct)
    (s : State) : Advances b.laterDrivers s (b.rest env name profile s) := by
  cases b
  · exact Advances.andThen
      ((block_advances .consul env name profile s).mono (by simp [Backend.drivers, Backend.laterDrivers]))
      (fun s1 _ => (block_advances .nomad env name profile s1).mono
        (by simp [Backend.drivers, Backend.laterDrivers]))
  · exact block_advances .nomad env name profile s
  · exact Advances.refl _ s

/-- The blocks before a backend's call only the earlier drivers. -/
theorem entry_advances (b : Backend) (env : Env) (name : String) (profile : profileStruct)
    (s : State) : Advances b.earlierDrivers s (b.entry env name profile s) := by
  cases b
  · exact client_advances _ env s
  · exact Advances.andThen (client_advances _ env s)
      (fun s1 _ => block_advances .vault env name profile s1)
  · exact Advances.andThen (Advances.andThen (client_advances _ env s)
      (fun s1 _ => (block_advances .vault env name profile s1).mono
        (by simp [Backend.drivers, Backend.earlierDrivers])))
      (fun s1 _ => (block_advances .consul env name profile s1).mono
        (by simp [Backend.drivers, Backend.earlierDrivers]))

/-! ## From the blocks to the run -/

/-- After a successful load the run is lines 100-240. -/
theorem UseProfile_ready {env : Env} {name : String} {profile : profileStruct}
    {pc : Option profiles} {s0 : State}
    (h : UseProfile.load env = .ready name profile pc s0) :
    UseProfile env =
      (UseProfile.blocks env name profile s0).andThen (UseProfile.persist env name pc) := by
  unfold UseProfile
  rw [h]
  rfl

/-- The write-back leaves the log, `profileCache` and the buffer. -/
theorem andThen_persist_state (env : Env) (name : String) (pc : Option profiles) (r : Result) :
    (r.andThen (UseProfile.persist env name pc)).state.trace = r.state.trace ∧
    (r.andThen (UseProfile.persist env name pc)).state.profileCache = r.state.profileCache ∧
    (r.andThen (UseProfile.persist env name pc)).state.printingBuffer =
      r.state.printingBuffer := by
  cases r with
  | ok s =>
    obtain ⟨h1, h2, h3, _⟩ := persist_frame env name pc s
    exact ⟨h1, h2, h3⟩
  | error msg s => exact ⟨rfl, rfl, rfl⟩
  | panic s => exact ⟨rfl, rfl, rfl⟩

/-- The reuse-or-renew statement calls only the driver of its own backend
when the cached token is not empty. -/
theorem Settled.own {env : Env} {b : Backend} {s : State} {r : Result}
    (h : Settled env b s r) (htok : (b.auth s.profileCache).Token ≠ "") :
    Advances [b.driver] s r := by
  cases h with
  | keep htok hexp => exact Advances.refl _ s
  | current et htok hexp hparse hnow =>
    exact (Advances.refl _ s.step).from rfl rfl rfl rfl ⟨[], by simp [State.step]⟩ rfl
  | stale et r htok hexp hparse hnow hr =>
    exact (renewal_advances hr).from rfl rfl rfl rfl ⟨[], by simp [State.step]⟩ rfl
  | corrupt r htok hexp hparse hr => exact renewal_advances hr
  | absent r htok' hr => exact absurd htok' htok

/-- The Consul block calls only the Consul driver unless the profile declares
the derived auth method and the cached Consul token is empty. -/
theorem consul_own (env : Env) (name : String) (profile : profileStruct) (s : State)
    (h : ¬ (profile.Consul.Auth.Method = "vault" ∧ s.profileCache.Consul.Auth.Token = "")) :
    Advances [.vaultGetConsulCreds] s (UseProfile.consul env name profile s) := by
  obtain ⟨h1, h2, h3, h4, _, h6⟩ := static_frame .consul profile s
  have hb := block_eq .consul env name profile s
  simp only [Backend.block] at hb
  rw [hb]
  split_ifs with hd
  · refine Advances.from ?_ h1 h2 h3 h4 (static_buffer .consul profile s) h6
    refine Advances.andThen ?_ (fun s1 _ => emit_advances _ .consul s1)
    refine (cachedStep_settled .consul env name profile _).own ?_
    rw [h6]
    exact fun ht => h ⟨hd, ht⟩
  · exact (Advances.refl _ _).from h1 h2 h3 h4 (static_buffer .consul profile s) h6

/-- The blocks before a backend's do not call its driver; for Nomad, unless
the Consul block meets an empty cached Consul token under the derived auth
method. -/
theorem entry_own (b : Backend) (env : Env) (name : String) (profile : profileStruct)
    (s : State)
    (hslip : b = .nomad →
      ¬ (profile.Consul.Auth.Method = "vault" ∧ s.profileCache.Consul.Auth.Token = "")) :
    ∃ D, b.driver ∉ D ∧ Advances D s (b.entry env name profile s) := by
  cases b
  · exact ⟨_, by simp [Backend.driver, Backend.earlierDrivers], entry_advances .vault env name profile s⟩
  · exact ⟨_, by simp [Backend.driver, Backend.earlierDrivers], entry_advances .consul env name profile s⟩
  · refine ⟨[.vaultLoginGitHub, .vaultGetConsulCreds], by simp [Backend.driver], ?_⟩
    have he := entry_advances .consul env name profile s
    refine Advances.andThen (he.mono (by simp [Backend.earlierDrivers])) ?_
    intro s1 hs1
    rw [show Backend.entry env name profile s .consul = .ok s1 from hs1] at he
    have hc := he.consulSlot (by simp [Backend.earlierDrivers])
    simp only [Result.state] at hc
    refine (consul_own env name profile s1 ?_).mono (by simp)
    rw [hc]
    exact hslip rfl

/-- A block of the derived auth method whose cached record has a token and an
expiry that parses as `et`: when `et` is not before the clock reading of the
check the block falls through with the log and the record as they were and
the cached token in its line; when it is before, the driver is called. -/
theorem block_parsed (b : Backend) (env : Env) (name : String) (profile : profileStruct)
    (s : State) (et : Time) (hd : b.derived profile)
    (htok : (b.auth s.profileCache).Token ≠ "")
    (hexp : (b.auth s.profileCache).ExpireTime ≠ "")
    (hparse : env.timeParse (b.auth s.profileCache).ExpireTime = some et) :
    (¬ et < env.now s.tick → ∃ s1, b.block env name profile s = .ok s1 ∧ s1.trace = s.trace ∧
      s1.profileCache = s.profileCache ∧
      exportLine b.tokenKey (b.auth s.profileCache).Token ∈ s1.printingBuffer) ∧
    (et < env.now s.tick → Event.call b.driver ∈ (b.block env name profile s).state.trace) := by
  rw [block_derived b env name profile s hd]
  obtain ⟨_, _, _, f4, f5, f6⟩ := static_frame b profile s
  have hset := cachedStep_settled b env name profile (b.static profile s)
  generalize b.cachedStep env name profile (b.static profile s) = r0 at hset
  rw [← f6] at htok hexp hparse
  cases hset with
  | keep htok' hexp' => exact absurd hexp' hexp
  | corrupt r htok' hexp' hparse' hr' => rw [hparse] at hparse'; cases hparse'
  | absent r htok' hr' => exact absurd htok' htok
  | current et' htok' hexp' hparse' hnow =>
    rw [hparse] at hparse'
    cases hparse'
    rw [f5] at hnow
    refine ⟨fun _ => ⟨_, rfl, ?_, ?_, ?_⟩, fun h => absurd h hnow⟩
    · rw [(emit_frame b _).1]; exact f4
    · rw [(emit_frame b _).2.2.1]; exact f6
    · rw [(emit_frame b _).2.2.2, ← f6]
      simp [State.step]
  | stale et' r htok' hexp' hparse' hnow hr' =>
    rw [hparse] at hparse'
    cases hparse'
    rw [f5] at hnow
    refine ⟨fun h => absurd hnow h, fun _ => ?_⟩
    refine Result.andThen_keeps (fun s => Event.call b.driver ∈ s.trace) _ _ ?_ (renewal_called hr')
    intro s1 _ h1
    simp only [Result.state, (emit_frame b s1).1]
    exact h1

/-- The Consul block leaves the Nomad record, or has called the Nomad driver
and, when it falls through, holds the record that driver returned. -/
theorem consul_nomad (env : Env) (name : String) (profile : profileStruct) (s : State) :
    (UseProfile.consul env name profile s).state.profileCache.Nomad = s.profileCache.Nomad ∨
    (Event.call Driver.vaultGetNomadCreds ∈ (UseProfile.consul env name profile s).state.trace ∧
      ∀ s1, UseProfile.consul env name profile s = .ok s1 → Fresh .nomad s1) := by
  by_cases h : profile.Consul.Auth.Method = "vault" ∧ s.profileCache.Consul.Auth.Token = ""
  · right
    obtain ⟨_, _, _, f4, f5, f6⟩ := static_frame .consul profile s
    have hb := block_derived .consul env name profile s h.1
    simp only [Backend.block] at hb
    rw [hb]
    have hset := cachedStep_settled .consul env name profile (Backend.consul.static profile s)
    generalize Backend.consul.cachedStep env name profile (Backend.consul.static profile s) = r0
      at hset
    have htok : (Backend.consul.auth (Backend.consul.static profile s).profileCache).Token = "" := by
      rw [f6]; exact h.2
    have hr : Renewal .nomad (Backend.consul.static profile s) r0 := by
      cases hset with
      | keep htok' hexp' => exact absurd htok htok'
      | current et' htok' hexp' hparse' hnow => exact absurd htok htok'
      | stale et' r htok' hexp' hparse' hnow hr' => exact absurd htok htok'
      | corrupt r htok' hexp' hparse' hr' => exact absurd htok htok'
      | absent r htok' hr' => exact hr'
    refine ⟨?_, ?_⟩
    · refine Result.andThen_keeps (fun s => Event.call Driver.vaultGetNomadCreds ∈ s.trace)
        _ _ ?_ (renewal_called hr)
      intro s1 _ h1
      simp only [Result.state, (emit_frame .consul s1).1]
      exact h1
    · intro s1 hs1
      obtain ⟨s', hs', he⟩ := Result.andThen_eq_ok.1 hs1
      cases he
      rw [hs'] at hr
      have hf := renewal_fresh hr
      unfold Fresh at hf ⊢
      rw [(emit_frame .consul s').1, (emit_frame .consul s').2.2.1]
      exact hf
  · left
    exact (consul_own env name profile s h).nomadSlot (by simp)

/-! ## Drivers entered and not returned -/

/-- The count over a log extended by events. -/
theorem pending_append (t u : List Event) : pending (t ++ u) = pending t + pending u := by
  simp only [pending, List.countP_append]
  push_cast
  ring

/-- Sequencing keeps the balance. -/
theorem balanced_andThen {s : State} {r : Result} {f : State → Result}
    (h : Balanced s r) (hf : ∀ s1, r = .ok s1 → Balanced s1 (f s1)) :
    Balanced s (r.andThen f) := by
  cases r with
  | error msg s1 => exact h
  | panic s1 => exact h
  | ok s1 =>
    have h' := hf s1 rfl
    simp only [Balanced] at h
    simp only [Result.andThen]
    cases hr : f s1 with
    | ok s2 => rw [hr] at h'; simp only [Balanced] at h' ⊢; rw [h', h]
    | error msg s2 => rw [hr] at h'; simp only [Balanced] at h' ⊢; rw [h', h]
    | panic s2 => rw [hr] at h'; simp only [Balanced] at h' ⊢; rw [← h]; exact h'

/-- The Vault login with its assignment keeps the balance. -/
theorem loginVault_balanced (env : Env) (name : String) (profile : profileStruct)
    (s : State) : Balanced s (UseProfile.loginVault env name profile s) := by
  unfold UseProfile.loginVault vaultLoginGitHub
  by_cases hg : profile.Vault.Auth.GithubToken = ""
  · simp [hg, Balanced, State.log, pending_append, pending, Event.isCall, Event.isRet]
  · simp only [hg, if_false]
    generalize ((if profile.Vault.Auth.GithubMount ≠ "" then
      [("mount", profile.Vault.Auth.GithubMount)] else []) ++
      [("token", profile.Vault.Auth.GithubToken)] : List (String × String)) = m
    cases h : env.githubAuth (s.log (.call .vaultLoginGitHub)).tick s.v m with
    | error e => simp [Balanced, State.log, State.step, pending_append, pending, Event.isCall, Event.isRet]
    | ok secret =>
      cases h2 : secret.Auth with
      | none =>
        simp [h2, Balanced, State.log, State.step, pending_append, pending, Event.isCall,
          Event.isRet]
        omega
      | some a => simp [h2, Balanced, State.log, State.step, pending_append, pending, Event.isCall,
          Event.isRet]

/-- The Consul read with its assignment keeps the balance. -/
theorem readConsul_balanced (env : Env) (name : String) (profile : profileStruct)
    (s : State) : Balanced s (UseProfile.readConsul env name profile s) := by
  unfold UseProfile.readConsul vaultGetConsulCreds readFromVault
  cases h : env.logicalRead (s.log (.call .vaultGetConsulCreds)).tick s.v
      profile.Consul.Auth.CredsPath with
  | error e => simp [Balanced, State.log, State.step, pending_append, pending, Event.isCall, Event.isRet]
  | ok creds =>
    cases creds with
    | none =>
      simp [Balanced, State.log, State.step, pending_append, pending, Event.isCall, Event.isRet]
      omega
    | some r =>
      cases h2 : r.Data "secret_id" with
      | none =>
        simp [h2, Balanced, State.log, State.step, pending_append, pending, Event.isCall,
          Event.isRet]
        omega
      | some val =>
        cases val with
        | other =>
          simp [h2, Balanced, State.log, State.step, pending_append, pending, Event.isCall,
          Event.isRet]
          omega
        | str tok => simp [h2, Balanced, State.log, State.step, pending_append, pending, Event.isCall,
          Event.isRet]

/-- The Nomad read with its assignment keeps the balance. -/
theorem readNomad_balanced (env : Env) (backend name : String) (profile : profileStruct)
    (s : State) : Balanced s (UseProfile.readNomad env backend name profile s) := by
  unfold UseProfile.readNomad vaultGetNomadCreds readFromVault
  cases h : env.logicalRead (s.log (.call .vaultGetNomadCreds)).tick s.v
      profile.Nomad.Auth.CredsPath with
  | error e => simp [Balanced, State.log, State.step, pending_append, pending, Event.isCall, Event.isRet]
  | ok creds =>
    cases creds with
    | none =>
      simp [Balanced, State.log, State.step, pending_append, pending, Event.isCall, Event.isRet]
      omega
    | some r =>
      cases h2 : r.Data "secret_id" with
      | none =>
        simp [h2, Balanced, State.log, State.step, pending_append, pending, Event.isCall,
          Event.isRet]
        omega
      | some val =>
        cases val with
        | other =>
          simp [h2, Balanced, State.log, State.step, pending_append, pending, Event.isCall,
          Event.isRet]
          omega
        | str tok => simp [h2, Balanced, State.log, State.step, pending_append, pending, Event.isCall,
          Event.isRet]

/-- Falling through without a change keeps the balance. -/
theorem balanced_refl (s : State) : Balanced s (.ok s) := rfl

/-- A state with the same log can stand in at the start of a stretch. -/
theorem balanced_from {s s' : State} {r : Result} (h : Balanced s' r)
    (ht : s'.trace = s.trace) : Balanced s r := by
  cases r <;> simp only [Balanced, ← ht] at h ⊢ <;> exact h

/-- The reuse-or-renew statement of every block keeps the balance. -/
theorem cachedStep_balanced (b : Backend) (env : Env) (name : String)
    (profile : profileStruct) (s : State) :
    Balanced s (b.cachedStep env name profile s) := by
  have hstep : Balanced s (.ok s.step) := rfl
  cases b
  · simp only [Backend.cachedStep, UseProfile.vaultCached]
    split_ifs
    · split
      · exact loginVault_balanced env name profile s
      · split_ifs
        · exact balanced_from (loginVault_balanced env name profile s.step) rfl
        · exact hstep
    · exact balanced_refl s
    · exact loginVault_balanced env name profile s
  · simp only [Backend.cachedStep, UseProfile.consulCached]
    split_ifs
    · split
      · exact readConsul_balanced env name profile s
      · split_ifs
        · exact balanced_from (readConsul_balanced env name profile s.step) rfl
        · exact hstep
    · exact balanced_refl s
    · exact readNomad_balanced env "Consul" name profile s
  · simp only [Backend.cachedStep, UseProfile.nomadCached]
    split_ifs
    · split
      · exact readNomad_balanced env "Nomad" name profile s
      · split_ifs
        · exact balanced_from (readNomad_balanced env "Nomad" name profile s.step) rfl
        · exact hstep
    · exact balanced_refl s
    · exact readNomad_balanced env "Nomad" name profile s

/-- A block keeps the balance. -/
theorem block_balanced (b : Backend) (env : Env) (name : String) (profile : profileStruct)
    (s : State) : Balanced s (b.block env name profile s) := by
  obtain ⟨_, _, _, h4, _, _⟩ := static_frame b profile s
  rw [block_eq]
  split_ifs with hd
  · refine balanced_from ?_ h4
    refine balanced_andThen (cachedStep_balanced b env name profile _) ?_
    intro s1 _
    simp only [Balanced, (emit_frame b s1).1]
  · exact balanced_from (balanced_refl _) h4

/-- Lines 100-212 keep the balance. -/
theorem blocks_balanced (env : Env) (name : String) (profile : profileStruct) (s : State) :
    Balanced s (UseProfile.blocks env name profile s) := by
  unfold UseProfile.blocks
  refine balanced_andThen (balanced_andThen (balanced_andThen ?_ ?_) ?_) ?_
  · unfold UseProfile.client
    cases env.newClient with
    | none => exact Or.inl rfl
    | some v => exact (rfl : Balanced s (.ok _))
  · intro s1 _
    exact block_balanced .vault env name profile s1
  · intro s1 _
    exact block_balanced .consul env name profile s1
  · intro s1 _
    exact block_balanced .nomad env name profile s1

/-! ## The claims -/

/-- The pairs of a block depend on the cache through the backend's record
only. -/
theorem pairs_congr (b : Backend) (profile c c' : profileStruct) (h : b.auth c = b.auth c') :
    b.pairs profile c = b.pairs profile c' := by
  unfold Backend.pairs
  rw [h]

/-- The blocks that fall through, one by one. -/
theorem blocks_ok {env : Env} {name : String} {profile : profileStruct} {s0 s4 : State}
    (h : UseProfile.blocks env name profile s0 = .ok s4) :
    ∃ s1 s2 s3, UseProfile.client env s0 = .ok s1 ∧
      Backend.vault.block env name profile s1 = .ok s2 ∧
      Backend.consul.block env name profile s2 = .ok s3 ∧
      Backend.nomad.block env name profile s3 = .ok s4 := by
  unfold UseProfile.blocks at h
  obtain ⟨s3, h3, g3⟩ := Result.andThen_eq_ok.1 h
  obtain ⟨s2, h2, g2⟩ := Result.andThen_eq_ok.1 h3
  obtain ⟨s1, h1, g1⟩ := Result.andThen_eq_ok.1 h2
  exact ⟨s1, s2, s3, h1, g1, g2, g3⟩

/-- C9. A successful run prints, after the notices of `decryptFile`, the
buffer, and the buffer is the sequence of lines "export KEY=VALUE" of
`exportPairs`: the Vault address, static token, unseal key and cached token,
then the Consul address, static token and cached token, then the Nomad
address, static token and cached token, each present under its condition and
with its value copied as it is. The keys come in the order of `exportOrder`:
all Vault lines, then all Consul lines, then all Nomad lines, the address of
a backend before its token lines. -/
theorem C9_export_lines_in_order (env : Env) (name : String) (profile : profileStruct)
    (pc : Option profiles) (s0 sf : State)
    (hload : UseProfile.load env = .ready name profile pc s0)
    (hok : UseProfile env = .ok sf) :
    sf.printingBuffer = renderPairs (exportPairs profile sf.profileCache) ∧
    ((exportPairs profile sf.profileCache).map Prod.fst).Sublist exportOrder ∧
    ∃ notices, sf.stdout = notices ++ [String.join sf.printingBuffer] ∧
      ∀ x ∈ notices, ∃ p, x = decryptNotice p := by
  obtain ⟨_, _, hb0, hq, _⟩ := load_ready hload
  rw [UseProfile_ready hload] at hok
  obtain ⟨s4, hb, hp⟩ := Result.andThen_eq_ok.1 hok
  obtain ⟨_, p2, p3, p4, _⟩ := persist_frame env name pc s4
  rw [hp] at p2 p3
  simp only [Result.state] at p2 p3
  obtain ⟨m, _, _, _, hout⟩ := p4 sf hp
  obtain ⟨s1, s2, s3, h1, h2, h3, h4⟩ := blocks_ok hb
  have c1 := client_advances [] env s0
  rw [h1] at c1
  have e0 : s1.printingBuffer = s0.printingBuffer := by
    unfold UseProfile.client at h1
    cases hn : env.newClient with
    | none => simp [hn] at h1
    | some v => simp only [hn, Result.ok.injEq] at h1; subst h1; rfl
  have a3 := block_advances .consul env name profile s2
  have a4 := block_advances .nomad env name profile s3
  rw [h3] at a3
  rw [h4] at a4
  have v43 := a4.vaultSlot (by simp [Backend.drivers])
  have v32 := a3.vaultSlot (by simp [Backend.drivers])
  have c43 := a4.consulSlot (by simp [Backend.drivers])
  simp only [Result.state] at v43 v32 c43
  have b2 := block_ok_buffer .vault env name profile s1 s2 h2
  have b3 := block_ok_buffer .consul env name profile s2 s3 h3
  have b4 := block_ok_buffer .nomad env name profile s3 s4 h4
  have st := blocks_advances env name profile s0
  rw [hb] at st
  refine ⟨?_, exportPairs_order _ _, s4.stdout, ?_, ?_⟩
  · rw [p3, p2, b4, b3, b2, e0, hb0, exportPairs,
      pairs_congr .vault profile s2.profileCache s4.profileCache
        (by simp [Backend.auth, v43, v32]),
      pairs_congr .consul profile s3.profileCache s4.profileCache
        (by simp [Backend.auth, c43])]
    simp [renderPairs]
  · rw [hout, p3]
  · have := st.stdout
    simp only [Result.state] at this
    rw [this]
    exact hq.2.2

/-- C7 (amended). A successful run for a profile with no auth method set on
any backend calls no driver and writes the cache back all the same: the map
written to the temporary file (and the map that replaced the cache file,
when the encryption succeeded) agrees with the loaded map `m` on every other
profile name, and at the resolved name holds the loaded entry when there is
one and the zero-valued record when there is none. -/
theorem C7_static_profile_writes_back_loaded_entry (env : Env) (name : String)
    (profile : profileStruct) (pc : Option profiles) (s0 sf : State)
    (hload : UseProfile.load env = .ready name profile pc s0)
    (hv : profile.Vault.Auth.Method = "") (hc : profile.Consul.Auth.Method = "")
    (hn : profile.Nomad.Auth.Method = "")
    (hok : UseProfile env = .ok sf) :
    ∃ m m', pc = some m ∧ sf.wrote = some m' ∧ (sf.stored = none ∨ sf.stored = some m') ∧
      (∀ k, k ≠ name → m' k = m k) ∧ m' name = some (m.index name) ∧ sf.trace = [] := by
  obtain ⟨ht0, _, _, hq, hpc⟩ := load_ready hload
  rw [UseProfile_ready hload] at hok
  obtain ⟨s4, hb, hp⟩ := Result.andThen_eq_ok.1 hok
  obtain ⟨p1, _, _, p4, _⟩ := persist_frame env name pc s4
  rw [hp] at p1
  simp only [Result.state] at p1
  obtain ⟨m, hm, hw, hst, _⟩ := p4 sf hp
  obtain ⟨s1, s2, s3, h1, h2, h3, h4⟩ := blocks_ok hb
  have e1 : s1.profileCache = s0.profileCache ∧ s1.trace = s0.trace := by
    unfold UseProfile.client at h1
    cases hn : env.newClient with
    | none => simp [hn] at h1
    | some v => simp only [hn, Result.ok.injEq] at h1; subst h1; exact ⟨rfl, rfl⟩
  rw [block_static .vault env name profile s1 (by simp [Backend.derived, hv])] at h2
  rw [block_static .consul env name profile s2 (by simp [Backend.derived, hc])] at h3
  rw [block_static .nomad env name profile s3 (by simp [Backend.derived, hn])] at h4
  cases h2
  cases h3
  cases h4
  obtain ⟨_, _, _, f4, _, f6⟩ := static_frame .vault profile s1
  obtain ⟨_, _, _, g4, _, g6⟩ := static_frame .consul profile (Backend.vault.static profile s1)
  obtain ⟨_, _, _, k4, _, k6⟩ := static_frame .nomad profile
    (Backend.consul.static profile (Backend.vault.static profile s1))
  have st := blocks_advances env name profile s0
  rw [hb] at st
  have hstored := st.stored
  simp only [Result.state] at hstored
  rw [k6, g6, f6, e1.1, hpc, hm] at hw
  refine ⟨m, _, hm, hw, ?_, ?_, ?_, ?_⟩
  · rcases hst with h | h
    · left; rw [h, hstored]; exact hq.2.1
    · right; rw [h, k6, g6, f6, e1.1, hpc, hm]
  · intro k hk
    simp [profiles.set, hk]
  · simp [profiles.set, cachedRecord]
  · rw [p1, k4, g4, f4, e1.2, ht0]

/-- C5. A successful run writes back the loaded cache map with only the
entry of the resolved profile name overwritten: the map written to the
temporary file (and the map that replaced the cache file, when the
encryption succeeded) agrees with the loaded map on every other name. The
loaded map is `m`; it is empty when no cache bytes came back. -/
theorem C5_other_profiles_survive (env : Env) (name : String) (profile : profileStruct)
    (pc : Option profiles) (s0 sf : State)
    (hload : UseProfile.load env = .ready name profile pc s0)
    (hok : UseProfile env = .ok sf) :
    ∃ m m', pc = some m ∧ sf.wrote = some m' ∧ (sf.stored = none ∨ sf.stored = some m') ∧
      ∀ k, k ≠ name → m' k = m k := by
  unfold UseProfile at hok
  simp only [hload, UseProfile.run] at hok
  obtain ⟨s4, hb, hp⟩ := Result.andThen_eq_ok.1 hok
  obtain ⟨_, _, _, hq, _⟩ := load_ready hload
  have hadv := blocks_advances env name profile s0
  rw [hb] at hadv
  obtain ⟨m, hm, hw, hst, _⟩ := (persist_frame env name pc s4).2.2.2.1 sf hp
  refine ⟨m, _, hm, hw, ?_, ?_⟩
  · rcases hst with h | h
    · left; rw [h]; exact hadv.stored.trans hq.2.1
    · right; exact h
  · intro k hk
    simp [profiles.set, hk]

/-- C6 (amended). A refresh driver that fails ends the run without a cache
write and without export output, in one of two ways. Whenever a driver
returns an error, the run returns an error. Whenever a driver panics (it was
entered and did not return: the response is absent, or has no string
"secret_id", or the login answer has no auth block), the run panics instead
of returning an error. In both cases nothing was written to the temporary
cache file, the cache file was not replaced, and standard output holds
nothing but the notices of `decryptFile`: the buffer of export lines was not
printed, whatever earlier backends had put in it. -/
theorem C6_driver_failure_stops_run (env : Env) :
    (∀ d a srv err, Event.ret d a srv (some err) ∈ (UseProfile env).state.trace →
      ∃ msg s, UseProfile env = .error msg s ∧ s.wrote = none ∧ s.stored = none ∧
        ∀ x ∈ s.stdout, ∃ p, x = decryptNotice p) ∧
    (DriverPanicked (UseProfile env).state →
      ∃ s, UseProfile env = .panic s ∧ s.wrote = none ∧ s.stored = none ∧
        ∀ x ∈ s.stdout, ∃ p, x = decryptNotice p) := by
  cases hl : UseProfile.load env with
  | stop r =>
    have hu : UseProfile env = r := by unfold UseProfile; rw [hl]
    have ht := (load_stop hl).1
    rw [hu]
    constructor
    · intro d a srv err h
      rw [ht] at h
      simp at h
    · intro h
      unfold DriverPanicked at h
      rw [ht] at h
      simp [pending] at h
  | ready name profile pc s0 =>
    rw [UseProfile_ready hl]
    obtain ⟨ht0, _, _, hq, _⟩ := load_ready hl
    obtain ⟨h1, h2, h3, ⟨t, ht, _, hcl⟩, _, _, _, _⟩ := blocks_advances env name profile s0
    have hbal := blocks_balanced env name profile s0
    have hpf := persist_frame env name pc
    have hp0 : pending s0.trace = 0 := by rw [ht0]; simp [pending]
    cases hb : UseProfile.blocks env name profile s0 with
    | ok s4 =>
      rw [hb] at ht hcl hbal
      simp only [Result.state] at ht
      simp only [Balanced] at hbal
      simp only [Result.andThen]
      constructor
      · intro d a srv err h
        exfalso
        rw [(hpf s4).1, ht, ht0, List.nil_append] at h
        exact hcl (by simp [Result.isError]) _ h trivial
      · intro h
        exfalso
        unfold DriverPanicked at h
        rw [(hpf s4).1, hbal, hp0] at h
        exact lt_irrefl _ h
    | panic s4 =>
      rw [hb] at ht hcl h1 h2 h3
      simp only [Result.state] at ht h1 h2 h3
      simp only [Result.andThen, Result.state]
      constructor
      · intro d a srv err h
        exfalso
        rw [ht, ht0, List.nil_append] at h
        exact hcl (by simp [Result.isError]) _ h trivial
      · intro _
        refine ⟨s4, rfl, h2.trans hq.1, h3.trans hq.2.1, ?_⟩
        rw [h1]
        exact hq.2.2
    | error msg s4 =>
      rw [hb] at h1 h2 h3 hbal
      simp only [Result.state] at h1 h2 h3
      simp only [Balanced] at hbal
      simp only [Result.andThen, Result.state]
      constructor
      · intro d a srv err _
        refine ⟨msg, s4, rfl, h2.trans hq.1, h3.trans hq.2.1, ?_⟩
        rw [h1]
        exact hq.2.2
      · intro h
        exfalso
        unfold DriverPanicked at h
        rw [hbal, hp0] at h
        exact lt_irrefl _ h

/-- C3. A run for a profile that declares the derived auth method of a
backend, whose loaded cache record for that backend has a non-empty token and
a non-empty expire_time that does not parse: when the run reaches the block
of the backend, the backend's refresh driver is called; and when the run
succeeds, the driver of the backend has returned, without error, the record
that ends in the backend's cache slot, the line of the backend's token
variable with the token of that record is in the buffer, and the buffer is
what was printed last. -/
theorem C3_unparsable_expiry_refreshes (env : Env) (name : String) (profile : profileStruct)
    (pc : Option profiles) (s0 : State) (b : Backend)
    (hload : UseProfile.load env = .ready name profile pc s0)
    (hd : b.derived profile)
    (htok : (b.auth (cachedRecord pc name)).Token ≠ "")
    (hexp : (b.auth (cachedRecord pc name)).ExpireTime ≠ "")
    (hparse : env.timeParse (b.auth (cachedRecord pc name)).ExpireTime = none) :
    ((∃ s, b.entry env name profile s0 = .ok s) →
      Event.call b.driver ∈ (UseProfile env).state.trace) ∧
    (∀ sf, UseProfile env = .ok sf →
      Event.ret b.driver (b.auth sf.profileCache) (b.server sf.profileCache) none ∈ sf.trace ∧
      exportLine b.tokenKey (b.auth sf.profileCache).Token ∈ sf.printingBuffer ∧
      sf.stdout.getLast? = some (String.join sf.printingBuffer)) := by
  obtain ⟨ht0, _, _, _, hpc⟩ := load_ready hload
  rw [← hpc] at htok hexp hparse
  have hrun := UseProfile_ready hload
  -- the state on entry to the block: the record is the loaded one, or fresh
  have key : ∀ s, b.entry env name profile s0 = .ok s →
      b.auth s.profileCache = b.auth s0.profileCache ∨
      (Event.call b.driver ∈ s.trace ∧ Fresh b s) := by
    intro s hs
    cases b
    · left
      have := entry_advances .vault env name profile s0
      rw [hs] at this
      exact (this.slot .vault (by simp [Backend.driver, Backend.earlierDrivers])).1
    · left
      have := entry_advances .consul env name profile s0
      rw [hs] at this
      exact (this.slot .consul (by simp [Backend.driver, Backend.earlierDrivers])).1
    · obtain ⟨s2, hs2, hc⟩ := Result.andThen_eq_ok.1 hs
      have h2 := entry_advances .consul env name profile s0
      rw [show Backend.entry env name profile s0 .consul = .ok s2 from hs2] at h2
      have hslot := h2.nomadSlot (by simp [Backend.earlierDrivers])
      simp only [Result.state] at hslot
      rcases consul_nomad env name profile s2 with h | ⟨h1, h3⟩
      · left
        rw [hc] at h
        simp only [Result.state] at h
        simp only [Backend.auth, h, hslot]
      · right
        rw [hc] at h1
        exact ⟨h1, h3 s hc⟩
  constructor
  · rintro ⟨s, hs⟩
    rw [hrun, (andThen_persist_state env name pc _).1, blocks_from_entry b env name profile s0 s hs]
    refine Result.andThen_keeps (fun s => Event.call b.driver ∈ s.trace) _ _ ?_ ?_
    · intro s1 _ h1
      exact advances_called (rest_advances b env name profile s1) h1
    · rcases key s hs with h | ⟨h, _⟩
      · exact block_called_of_corrupt b env name profile s hd (by rw [h]; exact htok)
          (by rw [h]; exact hexp) (by rw [h]; exact hparse)
      · exact advances_called (block_advances b env name profile s) h
  · intro sf hsf
    rw [hrun] at hsf
    obtain ⟨s4, hb, hp⟩ := Result.andThen_eq_ok.1 hsf
    obtain ⟨p1, p2, p3, p4, _⟩ := persist_frame env name pc s4
    rw [hp] at p1 p2 p3
    simp only [Result.state] at p1 p2 p3
    obtain ⟨m, _, _, _, hout⟩ := p4 sf hp
    have hentry : ∃ s, b.entry env name profile s0 = .ok s := by
      unfold UseProfile.blocks at hb
      obtain ⟨s3, h3, _⟩ := Result.andThen_eq_ok.1 hb
      obtain ⟨s2, h2, _⟩ := Result.andThen_eq_ok.1 h3
      obtain ⟨s1, h1, _⟩ := Result.andThen_eq_ok.1 h2
      cases b
      · exact ⟨s1, h1⟩
      · exact ⟨s2, h2⟩
      · exact ⟨s3, h3⟩
    obtain ⟨s, hs⟩ := hentry
    rw [blocks_from_entry b env name profile s0 s hs] at hb
    obtain ⟨s', hs', hrest⟩ := Result.andThen_eq_ok.1 hb
    have hserved : Served b s' := by
      refine block_served b env name profile s s' hd hs' ?_
      rcases key s hs with h | ⟨_, h⟩
      · right
        rw [h]
        exact ⟨htok, hexp, hparse⟩
      · left
        exact h
    have hlater := rest_advances b env name profile s'
    rw [hrest] at hlater
    have hfin := hlater.served (b := b) (by cases b <;> simp [Backend.driver, Backend.laterDrivers])
      hserved
    simp only [Result.state] at hfin
    obtain ⟨hf, hl⟩ := hfin
    unfold Fresh at hf
    rw [p1, p2, p3, hout]
    exact ⟨hf, hl, by simp⟩

/-- C2 (amended). A run for a profile that declares the derived auth method
of a backend, whose loaded cache record for that backend has a non-empty
token and an expire_time that parses as `et`, and that enters the block of
the backend in state `s`; for Nomad, a run in which the Consul block does not
meet an empty cached Consul token under the derived auth method. The current
time of the check is `env.now s.tick`, the clock reading the block takes. The
backend's driver is not called in the whole run if and only if `et` is not
before that reading, so an expiry equal to the current time is reused; and
then the backend's cache slot ends as it was loaded and a successful run has
the cached token in the backend's token line. -/
theorem C2_reuse_iff_not_before_now (env : Env) (name : String) (profile : profileStruct)
    (pc : Option profiles) (s0 : State) (b : Backend) (s : State) (et : Time)
    (hload : UseProfile.load env = .ready name profile pc s0)
    (hentry : b.entry env name profile s0 = .ok s)
    (hd : b.derived profile)
    (htok : (b.auth (cachedRecord pc name)).Token ≠ "")
    (hexp : (b.auth (cachedRecord pc name)).ExpireTime ≠ "")
    (hparse : env.timeParse (b.auth (cachedRecord pc name)).ExpireTime = some et)
    (hslip : b = .nomad → ¬ (profile.Consul.Auth.Method = "vault" ∧
      (cachedRecord pc name).Consul.Auth.Token = "")) :
    (Event.call b.driver ∉ (UseProfile env).state.trace ↔ ¬ et < env.now s.tick) ∧
    (¬ et < env.now s.tick →
      b.auth (UseProfile env).state.profileCache = b.auth (cachedRecord pc name) ∧
      b.server (UseProfile env).state.profileCache = b.server (cachedRecord pc name) ∧
      ∀ sf, UseProfile env = .ok sf →
        exportLine b.tokenKey (b.auth (cachedRecord pc name)).Token ∈ sf.printingBuffer) := by
  obtain ⟨ht0, _, _, _, hpc⟩ := load_ready hload
  rw [← hpc] at htok hexp hparse hslip ⊢
  have hrun := UseProfile_ready hload
  obtain ⟨D, hD, hadv⟩ := entry_own b env name profile s0 hslip
  rw [hentry] at hadv
  have hslot := hadv.slot b hD
  have hnc : Event.call b.driver ∉ s.trace := by
    have := hadv.called_iff hD
    simp only [Result.state] at this
    rw [this, ht0]
    simp
  simp only [Result.state] at hslot
  obtain ⟨hkeep, hcall⟩ := block_parsed b env name profile s et hd (by rw [hslot.1]; exact htok)
    (by rw [hslot.1]; exact hexp) (by rw [hslot.1]; exact hparse)
  have hlaterD : b.driver ∉ b.laterDrivers := by
    cases b <;> simp [Backend.driver, Backend.laterDrivers]
  obtain ⟨q1, q2, q3⟩ := andThen_persist_state env name pc (UseProfile.blocks env name profile s0)
  rw [← hrun, blocks_from_entry b env name profile s0 s hentry] at q1 q2 q3
  rw [q1, q2]
  have reuse : ¬ et < env.now s.tick →
      Event.call b.driver ∉ ((b.block env name profile s).andThen (b.rest env name profile)).state.trace
      ∧ b.auth ((b.block env name profile s).andThen (b.rest env name profile)).state.profileCache =
        b.auth s0.profileCache
      ∧ b.server ((b.block env name profile s).andThen (b.rest env name profile)).state.profileCache =
        b.server s0.profileCache
      ∧ exportLine b.tokenKey (b.auth s0.profileCache).Token ∈
        ((b.block env name profile s).andThen (b.rest env name profile)).state.printingBuffer := by
    intro hn
    obtain ⟨s1, h1, h2, h3, h4⟩ := hkeep hn
    rw [h1]
    simp only [Result.andThen]
    have hr := rest_advances b env name profile s1
    refine ⟨?_, ?_, ?_, ?_⟩
    · rw [hr.called_iff hlaterD, h2]
      exact hnc
    · rw [(hr.slot b hlaterD).1, h3, hslot.1]
    · rw [(hr.slot b hlaterD).2, h3, hslot.2]
    · obtain ⟨l, hl⟩ := hr.buffer
      rw [hl, ← hslot.1]
      exact List.mem_append_left _ h4
  constructor
  · constructor
    · intro hn hlt
      refine hn (Result.andThen_keeps (fun s => Event.call b.driver ∈ s.trace) _ _ ?_ (hcall hlt))
      intro s1 _ h1
      exact advances_called (rest_advances b env name profile s1) h1
    · intro hn
      exact (reuse hn).1
  · intro hn
    refine ⟨(reuse hn).2.1, (reuse hn).2.2.1, ?_⟩
    intro sf hsf
    have := (reuse hn).2.2.2
    rw [← q3, hsf] at this
    exact this

/-- A number of nanoseconds that fits `int64` is not changed by the wrap. -/
theorem wrap64_of_fits (x : Int) (h1 : -9223372036854775808 ≤ x) (h2 : x < 9223372036854775808) :
    wrap64 x = x := by
  unfold wrap64
  omega

/-- C8 (amended). The dynamic-secret read drivers, by the answer of the
secrets-engine read: when the read fails they return the error and the
record they were given; when the response is absent, or its payload has no
"secret_id", or the "secret_id" is not a string, they panic (lines 249 and
261 dereference and cast without a check); when the "secret_id" is a string
they return, without error, a record with that string as token and the
expiry made from the clock and the lease. So a record without error is
returned exactly when the field is present and is a string. -/
theorem C8_secret_read_outcomes (env : Env) (c : consulCreds) (n : nomadCreds) (vc : Client)
    (s : State) :
    (match env.logicalRead s.tick vc c.Auth.CredsPath with
      | .error err => ∃ s1, vaultGetConsulCreds env c vc s = .done c (some err) s1
      | .ok none => ∃ s1, vaultGetConsulCreds env c vc s = .panic s1
      | .ok (some r) =>
        match r.Data "secret_id" with
        | some (.str tok) => ∃ c1 s1, vaultGetConsulCreds env c vc s = .done c1 none s1 ∧
            c1.Auth.Token = tok ∧
            c1.Auth.ExpireTime =
              env.timeFormat (expiryAfter (env.now (s.tick + 1)) r.LeaseDuration)
        | _ => ∃ s1, vaultGetConsulCreds env c vc s = .panic s1) ∧
    (match env.logicalRead s.tick vc n.Auth.CredsPath with
      | .error err => ∃ s1, vaultGetNomadCreds env n vc s = .done n (some err) s1
      | .ok none => ∃ s1, vaultGetNomadCreds env n vc s = .panic s1
      | .ok (some r) =>
        match r.Data "secret_id" with
        | some (.str tok) => ∃ n1 s1, vaultGetNomadCreds env n vc s = .done n1 none s1 ∧
            n1.Auth.Token = tok ∧
            n1.Auth.ExpireTime =
              env.timeFormat (expiryAfter (env.now (s.tick + 1)) r.LeaseDuration)
        | _ => ∃ s1, vaultGetNomadCreds env n vc s = .panic s1) := by
  constructor
  · unfold vaultGetConsulCreds readFromVault
    simp only [State.log]
    cases h : env.logicalRead s.tick vc c.Auth.CredsPath with
    | error err => exact ⟨_, rfl⟩
    | ok creds =>
      cases creds with
      | none => exact ⟨_, rfl⟩
      | some r =>
        simp only
        cases h2 : r.Data "secret_id" with
        | none => exact ⟨_, rfl⟩
        | some val =>
          cases val with
          | other => exact ⟨_, rfl⟩
          | str tok => exact ⟨_, _, rfl, rfl, rfl⟩
  · unfold vaultGetNomadCreds readFromVault
    simp only [State.log]
    cases h : env.logicalRead s.tick vc n.Auth.CredsPath with
    | error err => exact ⟨_, rfl⟩
    | ok creds =>
      cases creds with
      | none => exact ⟨_, rfl⟩
      | some r =>
        simp only
        cases h2 : r.Data "secret_id" with
        | none => exact ⟨_, rfl⟩
        | some val =>
          cases val with
          | other => exact ⟨_, rfl⟩
          | str tok => exact ⟨_, _, rfl, rfl, rfl⟩

/-- C10 (amended). The GitHub login driver: with an empty github_token it
returns an error and the record it was given, and logs its call and return
only, no call of the login endpoint and no reading of the clock; with a
non-empty github_token, a login that succeeds with client token and lease
`a`, and a lease whose nanoseconds fit `int64`, it returns without error a
record whose token is the client token and whose expire_time is the clock
reading plus the lease in seconds. -/
theorem C10_github_login (env : Env) (v : vaultCreds) (vc : Client) (s : State) :
    (v.Auth.GithubToken = "" →
      ∃ err, vaultLoginGitHub env v vc s = .done v (some err)
        { s with trace := s.trace ++ [.call .vaultLoginGitHub,
            .ret .vaultLoginGitHub v.Auth v.Server (some err)] }) ∧
    (∀ secret a, v.Auth.GithubToken ≠ "" →
      env.githubAuth s.tick vc
        ((if v.Auth.GithubMount ≠ "" then [("mount", v.Auth.GithubMount)] else []) ++
          [("token", v.Auth.GithubToken)]) = .ok secret →
      secret.Auth = some a →
      -9223372036854775808 ≤ 1000000000 * a.LeaseDuration →
      1000000000 * a.LeaseDuration < 9223372036854775808 →
      ∃ v1 s1, vaultLoginGitHub env v vc s = .done v1 none s1 ∧
        v1.Auth.Token = a.ClientToken ∧
        v1.Auth.ExpireTime =
          env.timeFormat (env.now (s.tick + 1) + 1000000000 * a.LeaseDuration)) := by
  constructor
  · intro hg
    refine ⟨"github_token should be provided when using GitHub Vault auth method", ?_⟩
    unfold vaultLoginGitHub
    simp [hg, State.log]
  · intro secret a hg hlogin hauth h1 h2
    unfold vaultLoginGitHub
    simp only [hg, if_false, State.log, hlogin, hauth]
    refine ⟨_, _, rfl, rfl, ?_⟩
    simp only [expiryAfter, wrap64_of_fits _ h1 h2, State.step]

/-! ## The claims at concrete runs -/

/-- C1 (the code at the failing input). The profile declares the derived
auth method for Consul only and there is no cache, so the cached Consul token
is empty and every read of the secrets engine succeeds. The run succeeds; the
only driver called is `vaultGetNomadCreds`, on the Nomad path; the record it
returned is in the Nomad slot, the Consul slot still has an empty token, and
the Consul token line carries the empty token. -/
theorem C1_consul_empty_token_calls_nomad_driver :
    Backend.consul.derived Example.consulProfile ∧
    UseProfile.load Example.consulFirstUse =
      .ready "prod" Example.consulProfile (some profiles.empty) Example.loadedNoCache ∧
    (cachedRecord (some profiles.empty) "prod").Consul.Auth.Token = "" ∧
    UseProfile Example.consulFirstUse = .ok (UseProfile Example.consulFirstUse).state ∧
    (UseProfile Example.consulFirstUse).state.trace =
      [.call .vaultGetNomadCreds, .logicalRead "nomad/creds/ops",
       .ret .vaultGetNomadCreds { CredsPath := "nomad/creds/ops"
                                  Token := "secret-for-nomad/creds/ops"
                                  ExpireTime := "60000001001" } "" none] ∧
    (UseProfile Example.consulFirstUse).state.profileCache.Consul.Auth.Token = "" ∧
    (UseProfile Example.consulFirstUse).state.profileCache.Nomad.Auth.Token =
      "secret-for-nomad/creds/ops" ∧
    (UseProfile Example.consulFirstUse).state.printingBuffer = ["export CONSUL_HTTP_TOKEN=\n"] :=
  ⟨rfl, rfl, rfl, rfl, by decide, rfl, by decide, by decide⟩

/-- C4 (the code at the failing input). The profile declares the derived
auth method for Consul and Nomad; the cache holds a Nomad token with an empty
expire_time and no Consul token. The run succeeds, yet the Nomad driver is
called (by line 173, in the Consul block), the Nomad slot ends with the
record that driver returned and the Nomad token line carries the new token,
not the cached one. -/
theorem C4_cached_nomad_token_replaced :
    Backend.nomad.derived Example.bothProfile ∧
    UseProfile.load Example.nomadCachedConsulNot =
      .ready "prod" Example.bothProfile (some (Example.cacheMap (some Example.nomadOnlyCache)))
        (Example.loadedCache Example.nomadOnlyCache) ∧
    (cachedRecord (some (Example.cacheMap (some Example.nomadOnlyCache))) "prod").Nomad.Auth.Token =
      "old-nomad-token" ∧
    (cachedRecord (some (Example.cacheMap (some Example.nomadOnlyCache))) "prod").Nomad.Auth.ExpireTime =
      "" ∧
    UseProfile Example.nomadCachedConsulNot = .ok (UseProfile Example.nomadCachedConsulNot).state ∧
    Event.call Driver.vaultGetNomadCreds ∈ (UseProfile Example.nomadCachedConsulNot).state.trace ∧
    (UseProfile Example.nomadCachedConsulNot).state.profileCache.Nomad.Auth.Token =
      "secret-for-nomad/creds/ops" ∧
    (UseProfile Example.nomadCachedConsulNot).state.printingBuffer =
      ["export CONSUL_HTTP_TOKEN=\n", "export NOMAD_TOKEN=secret-for-nomad/creds/ops\n"] :=
  ⟨rfl, rfl, rfl, rfl, rfl, by decide, by decide, by decide⟩

/-- C2 (counterexample). The cached Vault token expires at instant 1000 and
every clock reading of the run is 1000: the expiry is not strictly after the
current time, yet the run calls no driver and prints the cached token. -/
theorem C2_counterexample_expiry_equal_to_now :
    Backend.vault.derived Example.githubProfile ∧
    UseProfile.load Example.expiresNow =
      .ready "prod" Example.githubProfile (some (Example.cacheMap (some Example.vaultCache)))
        (Example.loadedCache Example.vaultCache) ∧
    (cachedRecord (some (Example.cacheMap (some Example.vaultCache))) "prod").Vault.Auth.Token =
      "s.cached" ∧
    Example.expiresNow.timeParse
      (cachedRecord (some (Example.cacheMap (some Example.vaultCache))) "prod").Vault.Auth.ExpireTime =
      some 1000 ∧
    Example.expiresNow.now 0 = 1000 ∧
    ¬ (Event.call Driver.vaultLoginGitHub ∉ (UseProfile Example.expiresNow).state.trace ↔
      Example.expiresNow.now 0 < 1000) ∧
    (UseProfile Example.expiresNow).state.trace = [] ∧
    (UseProfile Example.expiresNow).state.printingBuffer =
      ["export VAULT_ADDR=https://vault.example:8200\n", "export VAULT_TOKEN=s.cached\n"] :=
  ⟨rfl, rfl, rfl, by decide, rfl, by decide, by decide, by decide⟩

/-- C6 (counterexample). The profile declares the derived auth method for
Nomad, there is no cache, and the secrets engine answers the read of line 244
with no secret and no error: the Nomad driver fails by the panic of line 249,
and the run panics, it does not return an error. -/
theorem C6_counterexample_driver_panic_is_no_error :
    Backend.nomad.derived Example.nomadProfile ∧
    UseProfile.load Example.nomadReadEmpty =
      .ready "prod" Example.nomadProfile (some profiles.empty) Example.loadedNoCache ∧
    (∃ s1, vaultGetNomadCreds Example.nomadReadEmpty Example.nomadProfile.Nomad
      ⟨"https://vault.example:8200", ""⟩ Example.loadedNoCache = .panic s1) ∧
    UseProfile Example.nomadReadEmpty = .panic (UseProfile Example.nomadReadEmpty).state ∧
    (UseProfile Example.nomadReadEmpty).state.trace =
      [.call .vaultGetNomadCreds, .logicalRead "nomad/creds/ops"] ∧
    ¬ ∃ msg s, UseProfile Example.nomadReadEmpty = .error msg s := by
  have hp : UseProfile Example.nomadReadEmpty =
      .panic (UseProfile Example.nomadReadEmpty).state := rfl
  refine ⟨rfl, rfl, ⟨_, rfl⟩, hp, by decide, ?_⟩
  rintro ⟨msg, s, h⟩
  rw [hp] at h
  cases h

/-- C7 (counterexample). The profile has static tokens only and there is no
cache file: the run succeeds, the cache is written and encrypted all the
same, and the map written has an entry for the resolved profile name that the
loaded (empty) map does not have. -/
theorem C7_counterexample_static_profile_writes_cache :
    Example.staticProfile.Vault.Auth.Method = "" ∧
    Example.staticProfile.Consul.Auth.Method = "" ∧
    Example.staticProfile.Nomad.Auth.Method = "" ∧
    UseProfile.load Example.staticOnly =
      .ready "prod" Example.staticProfile (some profiles.empty) Example.loadedNoCache ∧
    UseProfile Example.staticOnly = .ok (UseProfile Example.staticOnly).state ∧
    (UseProfile Example.staticOnly).state.wrote = some (profiles.empty.set "prod" {}) ∧
    (UseProfile Example.staticOnly).state.stored = some (profiles.empty.set "prod" {}) ∧
    profiles.empty.set "prod" {} "prod" = some {} ∧
    profiles.empty "prod" = none :=
  ⟨rfl, rfl, rfl, rfl, rfl, rfl, rfl, rfl, rfl⟩

/-- C8 (counterexample). The secrets engine answers the read with no secret
and no error: `vaultGetConsulCreds` panics, it does not return an error. -/
theorem C8_counterexample_absent_response_panics :
    (∃ s1, vaultGetConsulCreds Example.emptyRead Example.bothProfile.Consul ⟨"", ""⟩ {} =
      .panic s1) ∧
    ¬ ∃ c err s1, vaultGetConsulCreds Example.emptyRead Example.bothProfile.Consul ⟨"", ""⟩ {} =
      .done c (some err) s1 := by
  have hp : vaultGetConsulCreds Example.emptyRead Example.bothProfile.Consul ⟨"", ""⟩ {} =
      .panic ((({} : State).log (.call .vaultGetConsulCreds)).log
        (.logicalRead "consul/creds/ops")).step := rfl
  refine ⟨⟨_, hp⟩, ?_⟩
  rintro ⟨c, err, s1, h⟩
  rw [hp] at h
  cases h

/-- C10 (counterexample). At instant 0 the login grants a lease of
9223372037 seconds: the product with `time.Second` wraps in `int64` and the
expire_time of the returned record is in the past, not the current time plus
the lease. -/
theorem C10_counterexample_lease_overflow :
    Example.githubProfile.Vault.Auth.GithubToken ≠ "" ∧
    (∃ v1 s1, vaultLoginGitHub Example.longLease Example.githubProfile.Vault ⟨"", ""⟩ {} =
      .done v1 none s1 ∧ v1.Auth.Token = "s.vault" ∧
      v1.Auth.ExpireTime = "-9223372036709551616") ∧
    Example.longLease.timeFormat (Example.longLease.now 1 + 1000000000 * 9223372037) =
      "9223372037000000000" :=
  ⟨by decide, ⟨_, _, rfl, rfl, by decide⟩, by decide⟩

/-! ## Witnesses -/

/-- C2 (witness). The run of `Example.expiresNow`: the cached Vault token
expires at 1000, the check reads the clock at 1000, no driver is called and
the cached record and token are kept. -/
theorem C2_witness_reuse_at_expiry :
    UseProfile.load Example.expiresNow =
      .ready "prod" Example.githubProfile (some (Example.cacheMap (some Example.vaultCache)))
        (Example.loadedCache Example.vaultCache) ∧
    Backend.vault.derived Example.githubProfile ∧
    ((Event.call Backend.vault.driver ∉ (UseProfile Example.expiresNow).state.trace ↔
        ¬ (1000 : Time) < Example.expiresNow.now 0) ∧
      (¬ (1000 : Time) < Example.expiresNow.now 0 →
        Backend.vault.auth (UseProfile Example.expiresNow).state.profileCache =
          Backend.vault.auth (cachedRecord (some (Example.cacheMap (some Example.vaultCache))) "prod") ∧
        Backend.vault.server (UseProfile Example.expiresNow).state.profileCache =
          Backend.vault.server
            (cachedRecord (some (Example.cacheMap (some Example.vaultCache))) "prod") ∧
        ∀ sf, UseProfile Example.expiresNow = .ok sf →
          exportLine Backend.vault.tokenKey
            (Backend.vault.auth
              (cachedRecord (some (Example.cacheMap (some Example.vaultCache))) "prod")).Token ∈
            sf.printingBuffer)) :=
  ⟨rfl, rfl,
    C2_reuse_iff_not_before_now Example.expiresNow "prod" Example.githubProfile
      (some (Example.cacheMap (some Example.vaultCache))) (Example.loadedCache Example.vaultCache)
      .vault { Example.loadedCache Example.vaultCache with v := ⟨"https://vault.example:8200", ""⟩ }
      1000 rfl rfl rfl (by decide) (by decide) (by decide) (by decide)⟩

/-- C3 (witness). The run of `Example.corruptExpiry`: the cached Vault token
has the expiry "tomorrow"; the login driver is called and its token is the
one printed. -/
theorem C3_witness_corrupt_expiry :
    UseProfile.load Example.corruptExpiry =
      .ready "prod" Example.githubProfile (some (Example.cacheMap (some Example.corruptCache)))
        (Example.loadedCache Example.corruptCache) ∧
    Example.corruptExpiry.timeParse "tomorrow" = none ∧
    (((∃ s, Backend.vault.entry Example.corruptExpiry "prod" Example.githubProfile
        (Example.loadedCache Example.corruptCache) = .ok s) →
      Event.call Backend.vault.driver ∈ (UseProfile Example.corruptExpiry).state.trace) ∧
    (∀ sf, UseProfile Example.corruptExpiry = .ok sf →
      Event.ret Backend.vault.driver (Backend.vault.auth sf.profileCache)
        (Backend.vault.server sf.profileCache) none ∈ sf.trace ∧
      exportLine Backend.vault.tokenKey (Backend.vault.auth sf.profileCache).Token ∈
        sf.printingBuffer ∧
      sf.stdout.getLast? = some (String.join sf.printingBuffer))) :=
  ⟨rfl, by decide,
    C3_unparsable_expiry_refreshes Example.corruptExpiry "prod" Example.githubProfile
      (some (Example.cacheMap (some Example.corruptCache)))
      (Example.loadedCache Example.corruptCache) .vault rfl rfl (by decide) (by decide)
      (by decide)⟩

/-- C5 (witness). The run of `Example.corruptExpiry` writes back a map that
still holds the entry of "dev". -/
theorem C5_witness_dev_entry_survives :
    UseProfile Example.corruptExpiry = .ok (UseProfile Example.corruptExpiry).state ∧
    ∃ m m', some (Example.cacheMap (some Example.corruptCache)) = some m ∧
      (UseProfile Example.corruptExpiry).state.wrote = some m' ∧
      ((UseProfile Example.corruptExpiry).state.stored = none ∨
        (UseProfile Example.corruptExpiry).state.stored = some m') ∧
      ∀ k, k ≠ "prod" → m' k = m k :=
  ⟨rfl, C5_other_profiles_survive Example.corruptExpiry "prod" Example.githubProfile
    (some (Example.cacheMap (some Example.corruptCache)))
    (Example.loadedCache Example.corruptCache) (UseProfile Example.corruptExpiry).state rfl rfl⟩

/-- C6 (witness). The run of `Example.loginFails`: the login driver returns
an error for the missing github_token and the run returns an error. The run
of `Example.nomadReadEmpty`: the Nomad driver panics and the run panics. In
both nothing is written and nothing is printed but the notice. -/
theorem C6_witness_error_and_panic :
    Event.ret .vaultLoginGitHub Example.noGithubToken.Vault.Auth "" (some
      "github_token should be provided when using GitHub Vault auth method") ∈
      (UseProfile Example.loginFails).state.trace ∧
    (∃ msg s, UseProfile Example.loginFails = .error msg s ∧ s.wrote = none ∧ s.stored = none ∧
      ∀ x ∈ s.stdout, ∃ p, x = decryptNotice p) ∧
    DriverPanicked (UseProfile Example.nomadReadEmpty).state ∧
    (∃ s, UseProfile Example.nomadReadEmpty = .panic s ∧ s.wrote = none ∧ s.stored = none ∧
      ∀ x ∈ s.stdout, ∃ p, x = decryptNotice p) :=
  ⟨by decide,
    (C6_driver_failure_stops_run Example.loginFails).1 .vaultLoginGitHub
      Example.noGithubToken.Vault.Auth ""
      "github_token should be provided when using GitHub Vault auth method" (by decide),
    by decide,
    (C6_driver_failure_stops_run Example.nomadReadEmpty).2 (by decide)⟩

/-- C7 (witness). The run of `Example.staticOnly`. -/
theorem C7_witness_static_only :
    UseProfile Example.staticOnly = .ok (UseProfile Example.staticOnly).state ∧
    ∃ m m', some profiles.empty = some m ∧
      (UseProfile Example.staticOnly).state.wrote = some m' ∧
      ((UseProfile Example.staticOnly).state.stored = none ∨
        (UseProfile Example.staticOnly).state.stored = some m') ∧
      (∀ k, k ≠ "prod" → m' k = m k) ∧ m' "prod" = some (m.index "prod") ∧
      (UseProfile Example.staticOnly).state.trace = [] :=
  ⟨rfl, C7_static_profile_writes_back_loaded_entry Example.staticOnly "prod"
    Example.staticProfile (some profiles.empty) Example.loadedNoCache
    (UseProfile Example.staticOnly).state rfl rfl rfl rfl rfl⟩

/-- C9 (witness). The run of `Example.nomadCachedConsulNot` prints its lines
in order. -/
theorem C9_witness_lines_in_order :
    UseProfile Example.nomadCachedConsulNot =
      .ok (UseProfile Example.nomadCachedConsulNot).state ∧
    ((UseProfile Example.nomadCachedConsulNot).state.printingBuffer =
      renderPairs (exportPairs Example.bothProfile
        (UseProfile Example.nomadCachedConsulNot).state.profileCache) ∧
    ((exportPairs Example.bothProfile
        (UseProfile Example.nomadCachedConsulNot).state.profileCache).map Prod.fst).Sublist
      exportOrder ∧
    ∃ notices, (UseProfile Example.nomadCachedConsulNot).state.stdout =
        notices ++ [String.join (UseProfile Example.nomadCachedConsulNot).state.printingBuffer] ∧
      ∀ x ∈ notices, ∃ p, x = decryptNotice p) :=
  ⟨rfl, C9_export_lines_in_order Example.nomadCachedConsulNot "prod" Example.bothProfile
    (some (Example.cacheMap (some Example.nomadOnlyCache)))
    (Example.loadedCache Example.nomadOnlyCache)
    (UseProfile Example.nomadCachedConsulNot).state rfl rfl⟩

/-- C10 (witness). The login of `Example.corruptExpiry` with the token
"ghp_abc" grants "s.vault" for 3600 seconds at instant 1001; without a
github_token the driver returns its error. -/
theorem C10_witness_login :
    (∃ v1 s1, vaultLoginGitHub Example.corruptExpiry Example.githubProfile.Vault ⟨"", ""⟩ {} =
      .done v1 none s1 ∧ v1.Auth.Token = "s.vault" ∧
      v1.Auth.ExpireTime =
        Example.corruptExpiry.timeFormat (Example.corruptExpiry.now 1 + 1000000000 * 3600)) ∧
    ∃ err, vaultLoginGitHub Example.corruptExpiry Example.noGithubToken.Vault ⟨"", ""⟩ {} =
      .done Example.noGithubToken.Vault (some err)
        { ({} : State) with trace := [.call .vaultLoginGitHub,
          .ret .vaultLoginGitHub Example.noGithubToken.Vault.Auth
            Example.noGithubToken.Vault.Server (some err)] } :=
  ⟨(C10_github_login Example.corruptExpiry Example.githubProfile.Vault ⟨"", ""⟩ {}).2
      { Data := fun _ => none, LeaseDuration := 0, Auth := some ⟨"s.vault", 3600⟩ }
      ⟨"s.vault", 3600⟩ (by decide) rfl rfl (by decide) (by decide),
    (C10_github_login Example.corruptExpiry Example.noGithubToken.Vault ⟨"", ""⟩ {}).1 rfl⟩

end HashiHelper
